import Mathlib

/-!
# Account recovery module (`src/system/security.c`)

A shallow embedding of the recovery module: enrollment (`security_setup`),
status (`security_get_status`), challenge retrieval (`security_get_questions`),
verification (`security_verify`) and the two privileged actions
(`security_reset_password`, `security_factory_reset`).

C strings are lists of characters (the text before the terminator).  The
store, the hash, the identity accessor and the clock are not part of the
file; the hash, the escaping functions and the constants of the missing
headers are parameters (`Deps`), the answers of the environment during one
call are an `Env`, and the store is modelled as a row store.
-/

namespace Security

/-- A C string: the characters before the terminator, one per byte. -/
abbrev CStr := List Char

/-! ## The C library functions the module uses -/

/-- The C `strlen`. -/
def strlen (s : CStr) : Nat := s.length

/-- The C `strchr`: offset of the first occurrence of `c`, if any. -/
def strchr : CStr → Char → Option Nat
  | [], _ => none
  | x :: xs, c => if x = c then some 0 else (strchr xs c).map (· + 1)

/-- The C `strncpy(dst, src, n)` into a zero-filled buffer of `n + 1` bytes:
the destination then reads as the first `n` characters of `src`. -/
def strncpy (src : CStr) (n : Nat) : CStr := src.take n

/-- The idiom `nl = strchr(s, '\n'); if (nl) *nl = '\0';`. -/
def cut_newline (s : CStr) : CStr :=
  match strchr s '\n' with
  | some i => s.take i
  | none => s

/-- The C `isspace` in the "C" locale. -/
def isspace (c : Char) : Bool :=
  c = ' ' || c = '\t' || c = '\n' || c = '\x0b' || c = '\x0c' || c = '\r'

/-- Value of a decimal digit character. -/
def digit_value (c : Char) : Nat := c.toNat - '0'.toNat

/-- The digit loop of `atol`: accumulates the leading decimal digits. -/
def atol_digits : CStr → Nat → Nat
  | [], acc => acc
  | c :: cs, acc => if c.isDigit then atol_digits cs (acc * 10 + digit_value c) else acc

/-- The C `atol` (values within the range of `long`): leading white space,
an optional sign, then the leading decimal digits. -/
def atol (s : CStr) : Int :=
  match s.dropWhile isspace with
  | '-' :: r => - (atol_digits r 0 : Int)
  | '+' :: r => (atol_digits r 0 : Int)
  | r => (atol_digits r 0 : Int)

/-- Decimal digits of a natural number, most significant first. -/
def nat_to_dec : Nat → Nat → CStr
  | 0, _ => []
  | fuel + 1, n =>
    if n < 10 then [Nat.digitChar n]
    else nat_to_dec fuel (n / 10) ++ [Nat.digitChar (n % 10)]

/-- The C conversion `%ld`, also the way the store prints an integer column. -/
def fmt_ld (t : Int) : CStr :=
  if t < 0 then '-' :: nat_to_dec (t.natAbs + 1) t.natAbs
  else nat_to_dec (t.natAbs + 1) t.natAbs

/-! ## Parameters: what the missing headers and libraries provide -/

/-- The constants and pure functions the module takes from `security.h`,
`auth.h`, `database.h` and `sha256.h`, none of which is in the file. -/
structure Deps where
  /-- Hex digest of a text (`sha256_hash_string`). -/
  sha256_hash_string : CStr → CStr
  /-- The call `db_escape_string(src, dst, size)`: the text left in `dst`. -/
  db_escape_string : CStr → Nat → CStr
  /-- The call `db_unescape_string(s)`: the text left in `s`. -/
  db_unescape_string : CStr → CStr
  /-- The required confirmation phrase. -/
  SECURITY_CONFIRM_TEXT : CStr
  /-- The fixed default password. -/
  AUTH_DEFAULT_PASSWORD : CStr
  /-- Size of a digest buffer. -/
  SHA256_HEX_SIZE : Nat
  /-- Size bound of a question. -/
  SECURITY_QUESTION_MAX_LEN : Nat
  /-- Size of an identity buffer. -/
  SECURITY_ICCID_MAX_LEN : Nat
  /-- The value of `sizeof(status->iccid)`. -/
  sizeof_status_iccid : Nat
  /-- The value of `sizeof(questions->question1)`. -/
  sizeof_question1 : Nat
  /-- The value of `sizeof(questions->question2)`. -/
  sizeof_question2 : Nat
  /-- Whether the store ends the text of a found row with a line feed. -/
  query_newline : Bool

/-- What the environment answers during one call of an operation. -/
structure Env where
  /-- Return value of `get_iccid`. -/
  iccid_rc : Int
  /-- The identity text `get_iccid` delivers. -/
  iccid : CStr
  /-- The value of `time(NULL)`. -/
  now : Int
  /-- Whether the store call number `n` of the operation fails. -/
  fault : Nat → Bool

/-! ## The store -/

/-- The row of table `security_questions` (schema of `create_security_table`). -/
structure SecurityRow where
  question1 : CStr
  question2 : CStr
  answer1_hash : CStr
  answer2_hash : CStr
  iccid : CStr
  created_at : Int
  locked : Int
  deriving DecidableEq, Repr

/-- A row of any other table. -/
abbrev Row := List CStr

/-- The persistent state: the singleton recovery row (`id = 1`), the key/value
configuration and every other table by name. -/
structure Db where
  security_questions : Option SecurityRow
  config : List (CStr × CStr)
  tables : List (CStr × List Row)
  deriving DecidableEq, Repr

/-- The statements the module hands to `db_execute`. -/
inductive Stmt where
  /-- The `CREATE TABLE IF NOT EXISTS security_questions` statement. -/
  | create_security_table
  /-- The `INSERT OR REPLACE INTO security_questions` statement of `id = 1`
  with the values spliced into it, `locked` being 1. -/
  | insert_or_replace (question1 question2 answer1_hash answer2_hash iccid : CStr)
      (created_at : Int)
  /-- The statement `DELETE FROM <table>;`. -/
  | delete_from (table : CStr)
  /-- The statement `VACUUM;`. -/
  | vacuum
  deriving DecidableEq, Repr

/-- The three `SELECT ... WHERE id = 1` queries of the module. -/
inductive Query where
  /-- Columns `iccid, created_at`. -/
  | status
  /-- The text `question1 || '|' || question2`. -/
  | questions
  /-- The text `answer1_hash || '|' || answer2_hash || '|' || iccid`. -/
  | verify
  deriving DecidableEq, Repr

/-- Calls that leave the module, in the order they are made. -/
inductive Event where
  | query (q : Query)
  | execute (s : Stmt)
  | config_set (key value : CStr)
  | system (command : CStr)
  deriving DecidableEq, Repr

/-- The persistent state together with the calls made so far. -/
structure World where
  db : Db
  trace : List Event
  deriving DecidableEq, Repr

/-- Modelled from the spec: the store's answer to a query, absent from the
file (`db_query_string` of `database.c`).  The store is an opaque row store:
no row gives the empty text, a row gives its columns joined by `|`. -/
def query_text (d : Deps) (q : Query) (db : Db) : CStr :=
  match db.security_questions with
  | none => []
  | some r =>
    (match q with
      | .status => r.iccid ++ '|' :: fmt_ld r.created_at
      | .questions => r.question1 ++ '|' :: r.question2
      | .verify => r.answer1_hash ++ '|' :: (r.answer2_hash ++ '|' :: r.iccid))
    ++ (if d.query_newline then ['\n'] else [])

/-- Modelled from the spec: `db_query_string(sql, output, size)`, absent from the
file.  A read: it leaves the state as it is; a failing call returns non-zero
and leaves the zero-filled buffer empty, a successful one returns 0 and the
text cut to the buffer. -/
def db_query_string (fail : Bool) (d : Deps) (q : Query) (size : Nat) (w : World) :
    (Int × CStr) × World :=
  let w1 : World := { w with trace := w.trace ++ [Event.query q] }
  if fail then ((-1, []), w1)
  else ((0, (query_text d q w.db).take (size - 1)), w1)

/-- Empties the table `t` of the list of named tables. -/
def clear_table (t : CStr) (tables : List (CStr × List Row)) : List (CStr × List Row) :=
  tables.map (fun p => if p.1 = t then (p.1, []) else p)

/-- Modelled from the spec: the text a quoted SQL literal denotes, given the
characters between its quotes (the `'%s'` of `security_setup`): a doubled
quote stands for one quote; a quote that is not doubled ends the literal
early and leaves a text the store does not accept as the statement, `none`. -/
def sql_literal : CStr → Option CStr
  | [] => some []
  | [c] => if c = '\'' then none else some [c]
  | c :: c2 :: rest =>
    if c = '\'' then
      if c2 = '\'' then (sql_literal rest).map (fun t => '\'' :: t) else none
    else (sql_literal (c2 :: rest)).map (fun t => c :: t)

/-- The row the store keeps for the `INSERT OR REPLACE` statement: each of the
five spliced texts read as an SQL literal, `none` when one of them is not a
literal. -/
def stored_row (q1 q2 h1 h2 iccid : CStr) (t : Int) : Option SecurityRow :=
  (sql_literal q1).bind fun a =>
  (sql_literal q2).bind fun b =>
  (sql_literal h1).bind fun c =>
  (sql_literal h2).bind fun e =>
  (sql_literal iccid).bind fun i =>
  some { question1 := a, question2 := b, answer1_hash := c, answer2_hash := e,
         iccid := i, created_at := t, locked := 1 }

/-- Modelled from the spec: the effect of an accepted statement on the row
store, absent from the file; `none` when the store rejects the statement
(a table it does not have, a spliced text that is not an SQL literal).  The
store keeps what the quoted literals of the statement denote. -/
def apply_stmt (s : Stmt) (db : Db) : Option Db :=
  match s with
  | .create_security_table => some db
  | .insert_or_replace q1 q2 h1 h2 iccid t =>
    (stored_row q1 q2 h1 h2 iccid t).map
      (fun r => { db with security_questions := some r })
  | .delete_from t =>
    if t = "security_questions".toList then some { db with security_questions := none }
    else if t = "config".toList then some { db with config := [] }
    else if t ∈ db.tables.map Prod.fst then some { db with tables := clear_table t db.tables }
    else none
  | .vacuum => some db

/-- Modelled from the spec: `db_execute(sql)`, absent from the file.  A failing
or rejected statement returns non-zero and changes nothing. -/
def db_execute (fail : Bool) (s : Stmt) (w : World) : Int × World :=
  let w1 : World := { w with trace := w.trace ++ [Event.execute s] }
  if fail then (-1, w1)
  else
    match apply_stmt s w.db with
    | some db => (0, { w1 with db := db })
    | none => (-1, w1)

/-- Writes `key` in a key/value list, replacing an older entry. -/
def config_put (key value : CStr) (config : List (CStr × CStr)) : List (CStr × CStr) :=
  (key, value) :: config.filter (fun p => p.1 ≠ key)

/-- Modelled from the spec: `config_set(key, value)` of the process-wide
configuration store, absent from the file; the generic key/value
collection.  A failing call returns non-zero and changes nothing. -/
def config_set (fail : Bool) (key value : CStr) (w : World) : Int × World :=
  let w1 : World := { w with trace := w.trace ++ [Event.config_set key value] }
  if fail then (-1, w1)
  else (0, { w1 with db := { w.db with config := config_put key value w.db.config } })

/-- Modelled from the spec: `get_iccid(iccid, size)`, declared `extern` in the
file: the accessor of the device identity, its text cut to the buffer. -/
def get_iccid (env : Env) (size : Nat) : Int × CStr :=
  (env.iccid_rc, env.iccid.take (size - 1))

/-- Modelled from the spec: `system(command)`, the restart mechanism: the call
is recorded, the persistent state is left as it is. -/
def system (command : CStr) (w : World) : World :=
  { w with trace := w.trace ++ [Event.system command] }

/-! ## The module's types (`security.h`, read off their uses in the file) -/

/-- Result of the status query. -/
structure SecurityStatus where
  is_set : Int
  iccid : CStr
  created_at : Int
  deriving DecidableEq, Repr

/-- The enrollment request. -/
structure SecuritySetupRequest where
  question1 : CStr
  answer1 : CStr
  question2 : CStr
  answer2 : CStr
  deriving DecidableEq, Repr

/-- The two stored prompts. -/
structure SecurityQuestions where
  question1 : CStr
  question2 : CStr
  deriving DecidableEq, Repr

/-- The verification request. -/
structure SecurityVerifyRequest where
  confirm : CStr
  answer1 : CStr
  answer2 : CStr
  iccid : CStr
  deriving DecidableEq, Repr

/-! ## The functions of `security.c` -/

/-- The static `compute_answer_hash`. -/
def compute_answer_hash (d : Deps) (answer : CStr) : CStr :=
  d.sha256_hash_string answer

/-- The static `create_security_table`. -/
def create_security_table (env : Env) (w : World) : Int × World :=
  db_execute (env.fault 0) Stmt.create_security_table w

/-- The function `security_init`. -/
def security_init (env : Env) (w : World) : Int × World :=
  let r := create_security_table env w
  if r.1 ≠ 0 then (-1, r.2) else (0, r.2)

/-- The function `security_get_status`; `status` is the caller's buffer,
`none` for a null pointer.  Its query is store call 0 of the operation. -/
def security_get_status (d : Deps) (env : Env) (status : Option SecurityStatus)
    (w : World) : (Int × Option SecurityStatus) × World :=
  match status with
  | none => ((-1, none), w)
  | some _ =>
    let r := db_query_string (env.fault 0) d Query.status 256 w
    let output := r.1.2
    if r.1.1 = 0 ∧ strlen output > 0 then
      match strchr output '|' with
      | some p =>
        ((0, some { is_set := 1
                    iccid := strncpy (output.take p) (d.sizeof_status_iccid - 1)
                    created_at := atol (output.drop (p + 1)) }), r.2)
      | none =>
        ((0, some { is_set := 1
                    iccid := strncpy output (d.sizeof_status_iccid - 1)
                    created_at := 0 }), r.2)
    else ((0, some { is_set := 0, iccid := [], created_at := 0 }), r.2)

/-- The flag `status.is_set` as `security_setup` reads it after the call. -/
def status_is_set (s : Option SecurityStatus) : Int :=
  match s with
  | some st => st.is_set
  | none => 0

/-- The function `security_setup`.  The status query is store call 0, the
insertion store call 1. -/
def security_setup (d : Deps) (env : Env) (req : Option SecuritySetupRequest)
    (w : World) : Int × World :=
  match req with
  | none => (-2, w)
  | some req =>
    if strlen req.question1 = 0 ∨ strlen req.answer1 = 0 ∨
        strlen req.question2 = 0 ∨ strlen req.answer2 = 0 then (-2, w)
    else
      let st := security_get_status d env (some { is_set := 0, iccid := [], created_at := 0 }) w
      if st.1.1 = 0 ∧ status_is_set st.1.2 ≠ 0 then (-1, st.2)
      else
        let id := get_iccid env d.SECURITY_ICCID_MAX_LEN
        let current_iccid := id.2
        if id.1 ≠ 0 ∨ strlen current_iccid = 0 then (-2, st.2)
        else
          let answer1_hash := compute_answer_hash d req.answer1
          let answer2_hash := compute_answer_hash d req.answer2
          let escaped_q1 := d.db_escape_string req.question1 (d.SECURITY_QUESTION_MAX_LEN * 2)
          let escaped_q2 := d.db_escape_string req.question2 (d.SECURITY_QUESTION_MAX_LEN * 2)
          let r := db_execute (env.fault 1)
            (Stmt.insert_or_replace escaped_q1 escaped_q2 answer1_hash answer2_hash
              current_iccid env.now) st.2
          if r.1 ≠ 0 then (-2, r.2) else (0, r.2)

/-- The function `security_get_questions`; `questions` is the caller's buffer,
`none` for a null pointer.  Its query is store call 0 of the operation. -/
def security_get_questions (d : Deps) (env : Env) (questions : Option SecurityQuestions)
    (w : World) : (Int × Option SecurityQuestions) × World :=
  match questions with
  | none => ((-1, none), w)
  | some _ =>
    let r := db_query_string (env.fault 0) d Query.questions 1024 w
    let output := r.1.2
    if r.1.1 ≠ 0 ∨ strlen output = 0 then ((-1, some { question1 := [], question2 := [] }), r.2)
    else
      let parsed : SecurityQuestions :=
        match strchr output '|' with
        | some p =>
          { question1 := strncpy (output.take p) (d.sizeof_question1 - 1)
            question2 := cut_newline (strncpy (output.drop (p + 1)) (d.sizeof_question2 - 1)) }
        | none => { question1 := [], question2 := [] }
      ((0, some { question1 := d.db_unescape_string parsed.question1
                  question2 := d.db_unescape_string parsed.question2 }), r.2)

/-- The function `security_verify`; `none` is a null request.  Its query is
store call 0 of the operation. -/
def security_verify (d : Deps) (env : Env) (req : Option SecurityVerifyRequest)
    (w : World) : Int × World :=
  match req with
  | none => (-3, w)
  | some req =>
    if req.confirm ≠ d.SECURITY_CONFIRM_TEXT then (-3, w)
    else
      let r := db_query_string (env.fault 0) d Query.verify 512 w
      let output := r.1.2
      if r.1.1 ≠ 0 ∨ strlen output = 0 then (-1, r.2)
      else
        match strchr output '|' with
        | none => (-1, r.2)
        | some p1 =>
          let stored_hash1 := strncpy (output.take p1) (d.SHA256_HEX_SIZE - 1)
          let rest := output.drop (p1 + 1)
          match strchr rest '|' with
          | none => (-1, r.2)
          | some p2 =>
            let stored_hash2 := strncpy (rest.take p2) (d.SHA256_HEX_SIZE - 1)
            let stored_iccid :=
              cut_newline (strncpy (rest.drop (p2 + 1)) (d.SECURITY_ICCID_MAX_LEN - 1))
            let answer1_hash := compute_answer_hash d req.answer1
            let answer2_hash := compute_answer_hash d req.answer2
            if answer1_hash ≠ stored_hash1 ∨ answer2_hash ≠ stored_hash2 then (-1, r.2)
            else
              let id := get_iccid env d.SECURITY_ICCID_MAX_LEN
              let current_iccid := id.2
              if id.1 ≠ 0 then (-2, r.2)
              else if req.iccid ≠ stored_iccid ∧ current_iccid ≠ stored_iccid then (-2, r.2)
              else (0, r.2)

/-- The function `security_reset_password`.  After the verification (store
call 0), `config_set` is store call 1 and the token purge store call 2. -/
def security_reset_password (d : Deps) (env : Env) (req : Option SecurityVerifyRequest)
    (w : World) : Int × World :=
  let v := security_verify d env req w
  if v.1 ≠ 0 then (v.1, v.2)
  else
    let default_hash := d.sha256_hash_string d.AUTH_DEFAULT_PASSWORD
    let c := config_set (env.fault 1) "auth_password_hash".toList default_hash v.2
    if c.1 ≠ 0 then (-4, c.2)
    else
      let e := db_execute (env.fault 2) (Stmt.delete_from "auth_tokens".toList) c.2
      (0, e.2)

/-- The array `tables` of `security_factory_reset`. -/
def factory_reset_tables : List CStr :=
  [ "security_questions".toList, "auth_tokens".toList, "config".toList,
    "rathole_config".toList, "rathole_services".toList, "ipv6_proxy_config".toList,
    "ipv6_proxy_rules".toList, "ipv6_send_log".toList, "apn_config".toList,
    "apn_templates".toList, "sms".toList, "sent_sms".toList, "webhook_config".toList,
    "sms_config".toList ]

/-- The loop of `security_factory_reset`: one `DELETE FROM` per table, its
return value ignored; `k` is the number of the next store call. -/
def delete_tables (env : Env) : Nat → List CStr → World → World
  | _, [], w => w
  | k, t :: ts, w => delete_tables env (k + 1) ts (db_execute (env.fault k) (Stmt.delete_from t) w).2

/-- The function `security_factory_reset`.  After the verification (store
call 0) the deletions are store calls 1 to 14 and `VACUUM` store call 15;
the path read through `db_get_path` is not used afterwards. -/
def security_factory_reset (d : Deps) (env : Env) (req : Option SecurityVerifyRequest)
    (w : World) : Int × World :=
  let v := security_verify d env req w
  if v.1 ≠ 0 then (v.1, v.2)
  else
    let w1 := delete_tables env 1 factory_reset_tables v.2
    let w2 := (db_execute (env.fault 15) Stmt.vacuum w1).2
    (0, system "reboot".toList w2)

/-- The function `security_get_current_iccid`; `buffer` tells whether the
pointer is non-null. -/
def security_get_current_iccid (env : Env) (buffer : Bool) (size : Nat) : Int × CStr :=
  if !buffer || size = 0 then (-1, []) else get_iccid env size

/-! ## The spec's vocabulary -/

/-- Outcomes of Verify as the spec names them. -/
inductive VerifyOutcome where
  | Success
  | ConfirmationMismatch
  | NotEnrolled
  | AnswerMismatch
  | IdentityUnavailable
  | IdentityMismatch
  deriving DecidableEq, Repr

/-- Written from the spec's words (Verify, steps 1 to 6), over the recovery
record as a value: the outcome the spec names for a request. -/
def spec_Verify (d : Deps) (env : Env) (record : Option SecurityRow)
    (req : SecurityVerifyRequest) : VerifyOutcome :=
  if req.confirm ≠ d.SECURITY_CONFIRM_TEXT then VerifyOutcome.ConfirmationMismatch
  else
    match record with
    | none => VerifyOutcome.NotEnrolled
    | some r =>
      if ¬ (d.sha256_hash_string req.answer1 = r.answer1_hash ∧
            d.sha256_hash_string req.answer2 = r.answer2_hash) then
        VerifyOutcome.AnswerMismatch
      else if env.iccid_rc ≠ 0 then VerifyOutcome.IdentityUnavailable
      else if req.iccid = r.iccid ∨ (get_iccid env d.SECURITY_ICCID_MAX_LEN).2 = r.iccid then
        VerifyOutcome.Success
      else VerifyOutcome.IdentityMismatch

/-- The value `security_verify` returns at the place of each outcome (read off
its `return` statements). -/
def verify_code : VerifyOutcome → Int
  | .Success => 0
  | .ConfirmationMismatch => -3
  | .NotEnrolled => -1
  | .AnswerMismatch => -1
  | .IdentityUnavailable => -2
  | .IdentityMismatch => -2

/-- A recovery row as the data model describes it, in the sizes of the
module's buffers: two digests free of the delimiter that fit a digest
buffer, an identity of one line that fits an identity buffer, the three
together fitting the 512-byte read buffer of `security_verify`. -/
def RowWF (d : Deps) (r : SecurityRow) : Prop :=
  '|' ∉ r.answer1_hash ∧ '|' ∉ r.answer2_hash ∧
  r.answer1_hash.length < d.SHA256_HEX_SIZE ∧ r.answer2_hash.length < d.SHA256_HEX_SIZE ∧
  '\n' ∉ r.iccid ∧ r.iccid.length < d.SECURITY_ICCID_MAX_LEN ∧
  r.answer1_hash.length + r.answer2_hash.length + r.iccid.length + 2 < 512

instance (d : Deps) (r : SecurityRow) : Decidable (RowWF d r) := by
  unfold RowWF; infer_instance

/-- The world after a logged query. -/
def after_query (q : Query) (w : World) : World :=
  { w with trace := w.trace ++ [Event.query q] }

/-- The digests and the identity of a row fit the read buffer of
`security_verify` whatever they are. -/
def BuffersFit (d : Deps) : Prop :=
  2 * d.SHA256_HEX_SIZE + d.SECURITY_ICCID_MAX_LEN ≤ 512

instance (d : Deps) : Decidable (BuffersFit d) := by
  unfold BuffersFit; infer_instance

/-- A text has the form of a digest: free of the delimiter and of the quote,
and within a digest buffer. -/
def IsDigestText (d : Deps) (s : CStr) : Prop :=
  '|' ∉ s ∧ '\'' ∉ s ∧ s.length < d.SHA256_HEX_SIZE

instance (d : Deps) (s : CStr) : Decidable (IsDigestText d s) := by
  unfold IsDigestText; infer_instance

/-- The statement `security_setup` builds for a request in an environment. -/
def setup_stmt (d : Deps) (env : Env) (req : SecuritySetupRequest) : Stmt :=
  Stmt.insert_or_replace
    (d.db_escape_string req.question1 (d.SECURITY_QUESTION_MAX_LEN * 2))
    (d.db_escape_string req.question2 (d.SECURITY_QUESTION_MAX_LEN * 2))
    (d.sha256_hash_string req.answer1) (d.sha256_hash_string req.answer2)
    (get_iccid env d.SECURITY_ICCID_MAX_LEN).2 env.now

/-- The row the store keeps when it accepts the statement of `security_setup`
for a request in an environment: the spliced texts as SQL literals. -/
def enrolled_row (d : Deps) (env : Env) (req : SecuritySetupRequest) : SecurityRow :=
  { question1 :=
      (sql_literal (d.db_escape_string req.question1 (d.SECURITY_QUESTION_MAX_LEN * 2))).getD []
    question2 :=
      (sql_literal (d.db_escape_string req.question2 (d.SECURITY_QUESTION_MAX_LEN * 2))).getD []
    answer1_hash := (sql_literal (d.sha256_hash_string req.answer1)).getD []
    answer2_hash := (sql_literal (d.sha256_hash_string req.answer2)).getD []
    iccid := (sql_literal (get_iccid env d.SECURITY_ICCID_MAX_LEN).2).getD []
    created_at := env.now
    locked := 1 }

/-- The four fields of an enrollment request are non-empty. -/
def FieldsGiven (req : SecuritySetupRequest) : Prop :=
  req.question1 ≠ [] ∧ req.answer1 ≠ [] ∧ req.question2 ≠ [] ∧ req.answer2 ≠ []

instance (req : SecuritySetupRequest) : Decidable (FieldsGiven req) := by
  unfold FieldsGiven; infer_instance

/-! ## Concrete data for the examples -/

/-- Example parameters; the stand-in digest is the text without the
delimiter, cut to 64 characters. -/
def sample_deps : Deps where
  sha256_hash_string := fun s => (s.filter (fun c => c ≠ '|')).take 64
  db_escape_string := fun s n => s.take (n - 1)
  db_unescape_string := fun s => s
  SECURITY_CONFIRM_TEXT := "CONFIRM".toList
  AUTH_DEFAULT_PASSWORD := "admin".toList
  SHA256_HEX_SIZE := 65
  SECURITY_QUESTION_MAX_LEN := 256
  SECURITY_ICCID_MAX_LEN := 32
  sizeof_status_iccid := 32
  sizeof_question1 := 256
  sizeof_question2 := 256
  query_newline := true

/-- An environment in which every call succeeds. -/
def sample_env : Env :=
  { iccid_rc := 0, iccid := "8986001".toList, now := 1700000000, fault := fun _ => false }

/-- The same device with another card. -/
def sample_env_other_card : Env :=
  { iccid_rc := 0, iccid := "8986002".toList, now := 1700000500, fault := fun _ => false }

/-- An environment in which the device identity cannot be resolved. -/
def sample_env_no_identity : Env :=
  { iccid_rc := -1, iccid := [], now := 1700000500, fault := fun _ => false }

/-- An environment whose first store call (the status read of an enrollment)
fails while the later ones succeed. -/
def sample_env_read_fails : Env :=
  { iccid_rc := 0, iccid := "8986002".toList, now := 1700000900,
    fault := fun n => decide (n = 0) }

/-- An environment in which the first store call fails and the device
identity cannot be resolved. -/
def sample_env_read_fails_no_identity : Env :=
  { iccid_rc := -1, iccid := [], now := 1700000900, fault := fun n => decide (n = 0) }

/-- A state without recovery row, with one token and one configuration entry. -/
def sample_world : World :=
  { db := { security_questions := none
            config := [("auth_password_hash".toList, "old".toList)]
            tables := [("auth_tokens".toList, [["token".toList]]), ("sms".toList, [])] }
    trace := [] }

/-- The enrollment request of the spec's scenario. -/
def sample_setup : SecuritySetupRequest :=
  { question1 := "city?".toList, answer1 := "paris".toList
    question2 := "pet?".toList, answer2 := "rex".toList }

/-- Another enrollment request. -/
def sample_setup_other : SecuritySetupRequest :=
  { question1 := "food?".toList, answer1 := "rice".toList
    question2 := "team?".toList, answer2 := "ajax".toList }

/-- The state after the scenario's enrollment. -/
def sample_enrolled : World :=
  (security_setup sample_deps sample_env (some sample_setup) sample_world).2

/-- The matching verification request. -/
def sample_verify : SecurityVerifyRequest :=
  { confirm := "CONFIRM".toList, answer1 := "paris".toList, answer2 := "rex".toList
    iccid := "8986001".toList }

/-! ## Reading the persistent state -/

/-- The rows of the table named `t` among the named tables (no row when the
state has no such table). -/
def table_rows (t : CStr) (tables : List (CStr × List Row)) : List Row :=
  match tables with
  | [] => []
  | p :: ps => if p.1 = t then p.2 ++ table_rows t ps else table_rows t ps

/-- The authentication tokens of a state. -/
def auth_tokens (db : Db) : List Row := table_rows "auth_tokens".toList db.tables

/-- The value stored under `key` in a key/value list. -/
def config_get (key : CStr) (config : List (CStr × CStr)) : Option CStr :=
  match config with
  | [] => none
  | p :: ps => if p.1 = key then some p.2 else config_get key ps

/-- The collection named `t` holds nothing: the recovery row is absent, the
configuration is empty, or the named table has no row. -/
def collection_empty (t : CStr) (db : Db) : Prop :=
  if t = "security_questions".toList then db.security_questions = none
  else if t = "config".toList then db.config = []
  else table_rows t db.tables = []

instance (t : CStr) (db : Db) : Decidable (collection_empty t db) := by
  unfold collection_empty; infer_instance

/-- The calls `security_factory_reset` makes after a successful verification:
the fourteen deletions in the order of the array, the compaction, the
restart. -/
def factory_reset_calls : List Event :=
  factory_reset_tables.map (fun t => Event.execute (Stmt.delete_from t)) ++
    [Event.execute Stmt.vacuum, Event.system "reboot".toList]

/-! ## Escaping for the examples -/

/-- An environment in which only the third store call (the token purge of a
password reset) fails. -/
def sample_env_purge_fails : Env :=
  { iccid_rc := 0, iccid := "8986001".toList, now := 1700001000,
    fault := fun n => decide (n = 2) }

/-- An environment in which only the second store call fails (the credential
write of a password reset, the first deletion of a factory reset). -/
def sample_env_write_fails : Env :=
  { iccid_rc := 0, iccid := "8986001".toList, now := 1700001000,
    fault := fun n => decide (n = 1) }

/-- An environment in which the deletion of table `sms` (store call 11 of a
factory reset) and the compaction (store call 15) fail. -/
def sample_env_late_failures : Env :=
  { iccid_rc := 0, iccid := "8986001".toList, now := 1700001000,
    fault := fun n => decide (n = 11 ∨ n = 15) }

/-- The enrolled state with a message in the inbox. -/
def sample_enrolled_sms : World :=
  { sample_enrolled with
    db := { sample_enrolled.db with
            tables := [("auth_tokens".toList, [["token".toList]]),
                       ("sms".toList, [["hello".toList]])] } }

/-! ## Lemmas on the C library functions -/

theorem strchr_of_not_mem (s : CStr) (c : Char) (h : c ∉ s) : strchr s c = none := by
  induction s with
  | nil => rfl
  | cons x xs ih =>
    simp only [List.mem_cons, not_or] at h
    have hx : ¬ x = c := fun e => h.1 e.symm
    simp [strchr, hx, ih h.2]

theorem strchr_append_cons (a b : CStr) (c : Char) (h : c ∉ a) :
    strchr (a ++ c :: b) c = some a.length := by
  induction a with
  | nil => simp [strchr]
  | cons x xs ih =>
    simp only [List.mem_cons, not_or] at h
    have hx : ¬ x = c := fun e => h.1 e.symm
    simp [strchr, hx, ih h.2]

theorem cut_newline_append (a e : CStr) (h : '\n' ∉ a) (he : e = [] ∨ e = ['\n']) :
    cut_newline (a ++ e) = a := by
  rcases he with rfl | rfl
  · simp [cut_newline, strchr_of_not_mem a '\n' h]
  · simp [cut_newline, strchr_append_cons a [] '\n' h]

theorem take_append_tail (a e : CStr) (n : Nat) (h : a.length ≤ n)
    (he : e = [] ∨ e = ['\n']) :
    ∃ e2 : CStr, (e2 = [] ∨ e2 = ['\n']) ∧ (a ++ e).take n = a ++ e2 := by
  rcases he with rfl | rfl
  · exact ⟨[], Or.inl rfl, by simp [List.take_of_length_le h]⟩
  · rcases Nat.eq_or_lt_of_le h with h1 | h1
    · exact ⟨[], Or.inl rfl, by simp [List.take_append_eq_append_take, h1.symm]⟩
    · refine ⟨['\n'], Or.inr rfl, ?_⟩
      apply List.take_of_length_le
      simp; omega

/-! ## SQL literals -/

theorem sql_literal_of_no_quote : ∀ (s : CStr), '\'' ∉ s → sql_literal s = some s
  | [], _ => rfl
  | [c], h => by
    have hc : ¬ c = '\'' := fun e => h (by simp [e])
    simp [sql_literal, hc]
  | c :: c2 :: rest, h => by
    have hc : ¬ c = '\'' := fun e => h (by simp [e])
    have ht : '\'' ∉ c2 :: rest := fun m => h (List.mem_cons_of_mem _ m)
    simp [sql_literal, hc, sql_literal_of_no_quote (c2 :: rest) ht]

theorem sql_literal_sub : ∀ (s t : CStr), sql_literal s = some t →
    (∀ c, c ∈ t → c ∈ s) ∧ t.length ≤ s.length
  | [], t, h => by
    simp only [sql_literal, Option.some.injEq] at h
    subst h
    simp
  | [c], t, h => by
    by_cases hc : c = '\''
    · simp [sql_literal, hc] at h
    · simp only [sql_literal, hc, if_false, Option.some.injEq] at h
      subst h
      simp
  | c :: c2 :: rest, t, h => by
    by_cases hc : c = '\''
    · by_cases hc2 : c2 = '\''
      · simp only [sql_literal, hc, hc2, if_true, Option.map_eq_some'] at h
        obtain ⟨u, hu, rfl⟩ := h
        obtain ⟨h1, h2⟩ := sql_literal_sub rest u hu
        refine ⟨?_, ?_⟩
        · intro x hx
          rcases List.mem_cons.mp hx with e | e
          · simp [e, hc]
          · exact List.mem_cons_of_mem _ (List.mem_cons_of_mem _ (h1 x e))
        · simp only [List.length_cons]
          omega
      · simp [sql_literal, hc, hc2] at h
    · simp only [sql_literal, hc, if_false, Option.map_eq_some'] at h
      obtain ⟨u, hu, rfl⟩ := h
      obtain ⟨h1, h2⟩ := sql_literal_sub (c2 :: rest) u hu
      refine ⟨?_, ?_⟩
      · intro x hx
        rcases List.mem_cons.mp hx with e | e
        · simp [e]
        · exact List.mem_cons_of_mem _ (h1 x e)
      · simp only [List.length_cons] at h2 ⊢
        omega

theorem stored_row_some (q1 q2 h1 h2 iccid : CStr) (t : Int) (r : SecurityRow)
    (h : stored_row q1 q2 h1 h2 iccid t = some r) :
    sql_literal q1 = some r.question1 ∧ sql_literal q2 = some r.question2 ∧
      sql_literal h1 = some r.answer1_hash ∧ sql_literal h2 = some r.answer2_hash ∧
      sql_literal iccid = some r.iccid ∧ r.created_at = t ∧ r.locked = 1 := by
  unfold stored_row at h
  cases e1 : sql_literal q1 with
  | none => simp [e1] at h
  | some a =>
    cases e2 : sql_literal q2 with
    | none => simp [e1, e2] at h
    | some b =>
      cases e3 : sql_literal h1 with
      | none => simp [e1, e2, e3] at h
      | some c =>
        cases e4 : sql_literal h2 with
        | none => simp [e1, e2, e3, e4] at h
        | some e =>
          cases e5 : sql_literal iccid with
          | none => simp [e1, e2, e3, e4, e5] at h
          | some i =>
            simp only [e1, e2, e3, e4, e5, Option.some_bind, Option.some.injEq] at h
            subst h
            exact ⟨rfl, rfl, rfl, rfl, rfl, rfl, rfl⟩

theorem execute_setup_stmt (fail : Bool) (d : Deps) (env : Env) (req : SecuritySetupRequest)
    (w : World) (h : (db_execute fail (setup_stmt d env req) w).1 = 0) :
    fail = false ∧
      stored_row (d.db_escape_string req.question1 (d.SECURITY_QUESTION_MAX_LEN * 2))
        (d.db_escape_string req.question2 (d.SECURITY_QUESTION_MAX_LEN * 2))
        (d.sha256_hash_string req.answer1) (d.sha256_hash_string req.answer2)
        (get_iccid env d.SECURITY_ICCID_MAX_LEN).2 env.now = some (enrolled_row d env req) ∧
      (db_execute fail (setup_stmt d env req) w).2 =
        { db := { w.db with security_questions := some (enrolled_row d env req) }
          trace := w.trace ++ [Event.execute (setup_stmt d env req)] } := by
  cases fail
  · cases hr : stored_row (d.db_escape_string req.question1 (d.SECURITY_QUESTION_MAX_LEN * 2))
        (d.db_escape_string req.question2 (d.SECURITY_QUESTION_MAX_LEN * 2))
        (d.sha256_hash_string req.answer1) (d.sha256_hash_string req.answer2)
        (get_iccid env d.SECURITY_ICCID_MAX_LEN).2 env.now with
    | none =>
      simp [db_execute, setup_stmt, apply_stmt, hr] at h
    | some r =>
      obtain ⟨a1, a2, a3, a4, a5, a6, a7⟩ := stored_row_some _ _ _ _ _ _ r hr
      have hrow : r = enrolled_row d env req := by
        cases r
        simp only [enrolled_row] at *
        simp [a1, a2, a3, a4, a5, a6, a7]
      subst hrow
      refine ⟨rfl, rfl, ?_⟩
      simp [db_execute, setup_stmt, apply_stmt, hr]
  · simp [db_execute] at h

/-! ## What `security_verify` reads and returns -/

theorem query_verify_text (d : Deps) (r : SecurityRow) (w : World) (hwf : RowWF d r)
    (hdb : w.db.security_questions = some r) :
    ∃ e : CStr, (e = [] ∨ e = ['\n']) ∧
      db_query_string false d Query.verify 512 w =
        ((0, r.answer1_hash ++ '|' :: (r.answer2_hash ++ '|' :: (r.iccid ++ e))),
          after_query Query.verify w) := by
  obtain ⟨_, _, _, _, _, _, hlen⟩ := hwf
  have hA : (r.answer1_hash ++ '|' :: (r.answer2_hash ++ '|' :: r.iccid)).length ≤ 511 := by
    simp; omega
  obtain ⟨e2, he2, htake⟩ := take_append_tail
    (r.answer1_hash ++ '|' :: (r.answer2_hash ++ '|' :: r.iccid))
    (if d.query_newline then ['\n'] else []) 511 hA (by cases d.query_newline <;> simp)
  refine ⟨e2, he2, ?_⟩
  simp only [db_query_string, query_text, hdb, after_query]
  simp only [Bool.false_eq_true, if_false]
  rw [show (512 - 1 : Nat) = 511 from rfl, htake]
  simp [List.append_assoc]

theorem security_verify_set (d : Deps) (env : Env) (req : SecurityVerifyRequest) (w : World)
    (r : SecurityRow) (hwf : RowWF d r) (hdb : w.db.security_questions = some r)
    (hf : env.fault 0 = false) :
    security_verify d env (some req) w =
      if req.confirm ≠ d.SECURITY_CONFIRM_TEXT then (-3, w)
      else (verify_code (spec_Verify d env (some r) req), after_query Query.verify w) := by
  obtain ⟨e, he, hq⟩ := query_verify_text d r w hwf hdb
  obtain ⟨hp1, hp2, hl1, hl2, hnl, hli, _⟩ := hwf
  by_cases hc : req.confirm = d.SECURITY_CONFIRM_TEXT
  · have h1 : strchr (r.answer1_hash ++ '|' :: (r.answer2_hash ++ '|' :: (r.iccid ++ e))) '|'
        = some r.answer1_hash.length := strchr_append_cons _ _ _ hp1
    have h2 : strchr (r.answer2_hash ++ '|' :: (r.iccid ++ e)) '|'
        = some r.answer2_hash.length := strchr_append_cons _ _ _ hp2
    have ht1 : List.take (d.SHA256_HEX_SIZE - 1) r.answer1_hash = r.answer1_hash :=
      List.take_of_length_le (by omega)
    have ht2 : List.take (d.SHA256_HEX_SIZE - 1) r.answer2_hash = r.answer2_hash :=
      List.take_of_length_le (by omega)
    obtain ⟨e2, he2, hti⟩ := take_append_tail r.iccid e (d.SECURITY_ICCID_MAX_LEN - 1)
      (by omega) he
    have hcut : cut_newline (List.take (d.SECURITY_ICCID_MAX_LEN - 1) (r.iccid ++ e)) = r.iccid := by
      rw [hti]; exact cut_newline_append _ _ hnl he2
    simp only [security_verify, hf, hq, hc, ne_eq, not_true_eq_false, if_false, strlen,
      strncpy, compute_answer_hash]
    have hk1 : ∀ x : CStr, List.take r.answer1_hash.length (r.answer1_hash ++ '|' :: x)
        = r.answer1_hash := fun x => by simp
    have hd1 : ∀ x : CStr, List.drop (r.answer1_hash.length + 1) (r.answer1_hash ++ '|' :: x)
        = x := fun x => by simp
    have hk2 : ∀ x : CStr, List.take r.answer2_hash.length (r.answer2_hash ++ '|' :: x)
        = r.answer2_hash := fun x => by simp
    have hd2 : ∀ x : CStr, List.drop (r.answer2_hash.length + 1) (r.answer2_hash ++ '|' :: x)
        = x := fun x => by simp
    simp only [List.length_append, List.length_cons, h1, hk1, hd1, h2, hk2, hd2, ht1, ht2, hcut]
    simp only [spec_Verify, hc, ne_eq, not_true_eq_false, if_false, get_iccid]
    by_cases ha : d.sha256_hash_string req.answer1 = r.answer1_hash ∧
        d.sha256_hash_string req.answer2 = r.answer2_hash
    · obtain ⟨ha1, ha2⟩ := ha
      by_cases hi : env.iccid_rc = 0
      · by_cases hm : req.iccid = r.iccid ∨
            List.take (d.SECURITY_ICCID_MAX_LEN - 1) env.iccid = r.iccid
        · simp [ha1, ha2, hi, hm, verify_code]
          intro hx
          rcases hm with hm | hm
          · exact absurd hm hx
          · exact hm
        · have hm2 := hm
          simp only [not_or] at hm2
          simp [ha1, ha2, hi, hm, hm2.1, hm2.2, verify_code]
      · simp [ha1, ha2, hi, verify_code]
    · have ha2 : d.sha256_hash_string req.answer1 ≠ r.answer1_hash ∨
          d.sha256_hash_string req.answer2 ≠ r.answer2_hash := by
        by_contra hcon
        simp only [not_or, not_not, ne_eq] at hcon
        exact ha hcon
      have hz : ¬ (r.answer1_hash.length + (r.answer2_hash.length + (r.iccid.length + e.length + 1) + 1) = 0) := by
        omega
      simp [ha, ha2, verify_code]
  · simp [security_verify, hc]

/-! ## State kept by the reads, and what enrollment writes -/


theorem query_world (fail : Bool) (d : Deps) (q : Query) (n : Nat) (w : World) :
    (db_query_string fail d q n w).2 = after_query q w := by
  unfold db_query_string after_query
  split <;> rfl

theorem verify_world (d : Deps) (env : Env) (req : Option SecurityVerifyRequest) (w : World) :
    (security_verify d env req w).2 = w ∨
      (security_verify d env req w).2 = after_query Query.verify w := by
  unfold security_verify
  dsimp only
  repeat' split
  all_goals first | exact Or.inl rfl | exact Or.inr (query_world _ _ _ _ _)

theorem verify_keeps_db (d : Deps) (env : Env) (req : Option SecurityVerifyRequest) (w : World) :
    (security_verify d env req w).2.db = w.db := by
  rcases verify_world d env req w with h | h <;> rw [h]
  rfl

theorem status_world (d : Deps) (env : Env) (s : Option SecurityStatus) (w : World) :
    (security_get_status d env s w).2 = w ∨
      (security_get_status d env s w).2 = after_query Query.status w := by
  unfold security_get_status
  dsimp only
  repeat' split
  all_goals first | exact Or.inl rfl | exact Or.inr (query_world _ _ _ _ _)

theorem questions_world (d : Deps) (env : Env) (s : Option SecurityQuestions) (w : World) :
    (security_get_questions d env s w).2 = w ∨
      (security_get_questions d env s w).2 = after_query Query.questions w := by
  unfold security_get_questions
  dsimp only
  repeat' split
  all_goals first | exact Or.inl rfl | exact Or.inr (query_world _ _ _ _ _)



theorem status_text_ne_nil (d : Deps) (r : SecurityRow) (w : World)
    (hdb : w.db.security_questions = some r) :
    0 < ((query_text d Query.status w.db).take (256 - 1)).length := by
  simp only [query_text, hdb]
  simp

theorem status_of_row (d : Deps) (env : Env) (s : SecurityStatus) (w : World) (r : SecurityRow)
    (hdb : w.db.security_questions = some r) (hf : env.fault 0 = false) :
    (security_get_status d env (some s) w).1.1 = 0 ∧
      status_is_set (security_get_status d env (some s) w).1.2 = 1 ∧
      (security_get_status d env (some s) w).2 = after_query Query.status w := by
  have hlen := status_text_ne_nil d r w hdb
  unfold security_get_status
  simp only [db_query_string, hf, strlen, Bool.false_eq_true, if_false, true_and, hlen, if_true,
    gt_iff_lt]
  split <;> exact ⟨rfl, rfl, rfl⟩

theorem status_of_fault (d : Deps) (env : Env) (s : SecurityStatus) (w : World)
    (hf : env.fault 0 = true) :
    security_get_status d env (some s) w =
      ((0, some { is_set := 0, iccid := [], created_at := 0 }), after_query Query.status w) := by
  unfold security_get_status
  simp [db_query_string, hf, after_query]

theorem status_of_unset (d : Deps) (env : Env) (s : SecurityStatus) (w : World)
    (hdb : w.db.security_questions = none) :
    security_get_status d env (some s) w =
      ((0, some { is_set := 0, iccid := [], created_at := 0 }), after_query Query.status w) := by
  unfold security_get_status
  cases hf : env.fault 0 <;> simp [db_query_string, hf, after_query, query_text, hdb, strlen]

theorem setup_of_empty_field (d : Deps) (env : Env) (req : SecuritySetupRequest) (w : World)
    (h : ¬ FieldsGiven req) : security_setup d env (some req) w = (-2, w) := by
  unfold security_setup
  have : strlen req.question1 = 0 ∨ strlen req.answer1 = 0 ∨
      strlen req.question2 = 0 ∨ strlen req.answer2 = 0 := by
    simp only [strlen, List.length_eq_zero]
    unfold FieldsGiven at h
    tauto
  simp only [this, if_true]

theorem setup_of_row (d : Deps) (env : Env) (req : SecuritySetupRequest) (w : World)
    (r : SecurityRow) (hdb : w.db.security_questions = some r) (hf : env.fault 0 = false)
    (h : FieldsGiven req) :
    security_setup d env (some req) w = (-1, after_query Query.status w) := by
  obtain ⟨h1, h2, h3⟩ := status_of_row d env { is_set := 0, iccid := [], created_at := 0 } w r hdb hf
  have hn : ¬ (strlen req.question1 = 0 ∨ strlen req.answer1 = 0 ∨
      strlen req.question2 = 0 ∨ strlen req.answer2 = 0) := by
    simp only [strlen, List.length_eq_zero]
    unfold FieldsGiven at h
    tauto
  unfold security_setup
  simp only [hn, if_false, h1, h2, h3]
  simp

theorem setup_success_full (d : Deps) (env : Env) (req : SecuritySetupRequest) (w : World)
    (h : (security_setup d env (some req) w).1 = 0) :
    FieldsGiven req ∧ env.iccid_rc = 0 ∧ (get_iccid env d.SECURITY_ICCID_MAX_LEN).2 ≠ [] ∧
      env.fault 1 = false ∧
      (security_setup d env (some req) w).2.db =
        { w.db with security_questions := some (enrolled_row d env req) } ∧
      stored_row (d.db_escape_string req.question1 (d.SECURITY_QUESTION_MAX_LEN * 2))
        (d.db_escape_string req.question2 (d.SECURITY_QUESTION_MAX_LEN * 2))
        (d.sha256_hash_string req.answer1) (d.sha256_hash_string req.answer2)
        (get_iccid env d.SECURITY_ICCID_MAX_LEN).2 env.now = some (enrolled_row d env req) := by
  by_cases hfg : FieldsGiven req
  · have hn : ¬ (strlen req.question1 = 0 ∨ strlen req.answer1 = 0 ∨
        strlen req.question2 = 0 ∨ strlen req.answer2 = 0) := by
      simp only [strlen, List.length_eq_zero]
      unfold FieldsGiven at hfg
      tauto
    have hdbs : (security_get_status d env (some { is_set := 0, iccid := [], created_at := 0 }) w).2.db
        = w.db := by
      rcases status_world d env (some { is_set := 0, iccid := [], created_at := 0 }) w with e | e <;>
        simp only [e, after_query]
    unfold security_setup at h ⊢
    simp only [hn, if_false] at h ⊢
    by_cases hs : (security_get_status d env (some { is_set := 0, iccid := [], created_at := 0 }) w).1.1 = 0 ∧
        status_is_set (security_get_status d env
          (some { is_set := 0, iccid := [], created_at := 0 }) w).1.2 ≠ 0
    · rw [if_pos hs] at h
      simp at h
    · rw [if_neg hs] at h ⊢
      by_cases hid : (get_iccid env d.SECURITY_ICCID_MAX_LEN).1 ≠ 0 ∨
          strlen (get_iccid env d.SECURITY_ICCID_MAX_LEN).2 = 0
      · rw [if_pos hid] at h
        simp at h
      · rw [if_neg hid] at h ⊢
        simp only [not_or, not_not, ne_eq, strlen, List.length_eq_zero] at hid
        have hw : (db_execute (env.fault 1) (setup_stmt d env req)
            (security_get_status d env
              (some { is_set := 0, iccid := [], created_at := 0 }) w).2).1 = 0 := by
          by_contra hne
          simp only [compute_answer_hash] at h
          rw [show Stmt.insert_or_replace _ _ _ _ _ _ = setup_stmt d env req from rfl,
            if_pos hne] at h
          simp at h
        obtain ⟨hf1, hlit, hres⟩ := execute_setup_stmt _ d env req _ hw
        simp only [compute_answer_hash]
        rw [show Stmt.insert_or_replace
            (d.db_escape_string req.question1 (d.SECURITY_QUESTION_MAX_LEN * 2))
            (d.db_escape_string req.question2 (d.SECURITY_QUESTION_MAX_LEN * 2))
            (d.sha256_hash_string req.answer1) (d.sha256_hash_string req.answer2)
            (get_iccid env d.SECURITY_ICCID_MAX_LEN).2 env.now = setup_stmt d env req from rfl,
          if_neg (by simpa using hw), hres]
        refine ⟨hfg, ?_, hid.2, hf1, ?_, hlit⟩
        · simpa [get_iccid] using hid.1
        · simp only [hdbs]
  · rw [setup_of_empty_field d env req w hfg] at h
    simp at h

theorem setup_success (d : Deps) (env : Env) (req : SecuritySetupRequest) (w : World)
    (h : (security_setup d env (some req) w).1 = 0) :
    FieldsGiven req ∧ env.iccid_rc = 0 ∧ (get_iccid env d.SECURITY_ICCID_MAX_LEN).2 ≠ [] ∧
      env.fault 1 = false ∧
      (security_setup d env (some req) w).2.db =
        { w.db with security_questions := some (enrolled_row d env req) } := by
  obtain ⟨a, b, c, e, f, _⟩ := setup_success_full d env req w h
  exact ⟨a, b, c, e, f⟩

theorem setup_success_literals (d : Deps) (env : Env) (req : SecuritySetupRequest) (w : World)
    (h : (security_setup d env (some req) w).1 = 0) :
    stored_row (d.db_escape_string req.question1 (d.SECURITY_QUESTION_MAX_LEN * 2))
        (d.db_escape_string req.question2 (d.SECURITY_QUESTION_MAX_LEN * 2))
        (d.sha256_hash_string req.answer1) (d.sha256_hash_string req.answer2)
        (get_iccid env d.SECURITY_ICCID_MAX_LEN).2 env.now = some (enrolled_row d env req) :=
  (setup_success_full d env req w h).2.2.2.2.2

/-! ## Verification against the spec's outcomes -/

theorem verify_of_fault (d : Deps) (env : Env) (req : SecurityVerifyRequest) (w : World)
    (hf : env.fault 0 = true) (hc : req.confirm = d.SECURITY_CONFIRM_TEXT) :
    security_verify d env (some req) w = (-1, after_query Query.verify w) := by
  unfold security_verify
  simp [db_query_string, hf, after_query, hc]

theorem verify_of_phrase (d : Deps) (env : Env) (req : SecurityVerifyRequest) (w : World)
    (hc : req.confirm ≠ d.SECURITY_CONFIRM_TEXT) :
    security_verify d env (some req) w = (-3, w) := by
  unfold security_verify
  simp [hc]

theorem enrolled_row_digests (d : Deps) (env : Env) (req : SecuritySetupRequest)
    (h1 : IsDigestText d (d.sha256_hash_string req.answer1))
    (h2 : IsDigestText d (d.sha256_hash_string req.answer2)) :
    (enrolled_row d env req).answer1_hash = d.sha256_hash_string req.answer1 ∧
      (enrolled_row d env req).answer2_hash = d.sha256_hash_string req.answer2 := by
  simp only [enrolled_row, sql_literal_of_no_quote _ h1.2.1, sql_literal_of_no_quote _ h2.2.1,
    Option.getD_some, and_self]

theorem enrolled_row_iccid (d : Deps) (env : Env) (req : SecuritySetupRequest) :
    (∀ c, c ∈ (enrolled_row d env req).iccid → c ∈ env.iccid) ∧
      (enrolled_row d env req).iccid.length ≤ d.SECURITY_ICCID_MAX_LEN - 1 := by
  have hlen : (List.take (d.SECURITY_ICCID_MAX_LEN - 1) env.iccid).length
      ≤ d.SECURITY_ICCID_MAX_LEN - 1 := by
    simp
  cases hl : sql_literal (get_iccid env d.SECURITY_ICCID_MAX_LEN).2 with
  | none => simp [enrolled_row, hl]
  | some i =>
    obtain ⟨hm, hle⟩ := sql_literal_sub _ i hl
    simp only [enrolled_row, hl, Option.getD_some]
    refine ⟨fun c hc => List.mem_of_mem_take (hm c hc), ?_⟩
    simp only [get_iccid] at hle
    omega

theorem enrolled_row_wf (d : Deps) (env : Env) (req : SecuritySetupRequest)
    (h1 : IsDigestText d (d.sha256_hash_string req.answer1))
    (h2 : IsDigestText d (d.sha256_hash_string req.answer2))
    (hnl : '\n' ∉ env.iccid) (hne : (get_iccid env d.SECURITY_ICCID_MAX_LEN).2 ≠ [])
    (hfit : BuffersFit d) : RowWF d (enrolled_row d env req) := by
  unfold BuffersFit at hfit
  obtain ⟨e1, e2⟩ := enrolled_row_digests d env req h1 h2
  obtain ⟨hm, hle⟩ := enrolled_row_iccid d env req
  obtain ⟨h1a, _, h1b⟩ := h1
  obtain ⟨h2a, _, h2b⟩ := h2
  have hpos : 0 < d.SECURITY_ICCID_MAX_LEN - 1 := by
    by_contra hz
    have hz2 : d.SECURITY_ICCID_MAX_LEN - 1 = 0 := by omega
    apply hne
    simp [get_iccid, hz2]
  refine ⟨?_, ?_, ?_, ?_, ?_, ?_, ?_⟩
  · rw [e1]; exact h1a
  · rw [e2]; exact h2a
  · rw [e1]; exact h1b
  · rw [e2]; exact h2b
  · exact fun hx => hnl (hm _ hx)
  · omega
  · rw [e1, e2]; omega

theorem reset_of_failed_verify (d : Deps) (env : Env) (req : Option SecurityVerifyRequest)
    (w : World) (h : (security_verify d env req w).1 ≠ 0) :
    security_reset_password d env req w = security_verify d env req w := by
  unfold security_reset_password
  simp [h]

theorem factory_of_failed_verify (d : Deps) (env : Env) (req : Option SecurityVerifyRequest)
    (w : World) (h : (security_verify d env req w).1 ≠ 0) :
    security_factory_reset d env req w = security_verify d env req w := by
  unfold security_factory_reset
  simp [h]

/-! ## Properties of the specification -/

/-- C1 (violated by the code): a state holds the record of a first enrollment;
a second `security_setup` with four non-empty fields, a resolvable identity,
a failing status read and a successful write returns 0 and replaces the
record by one with other questions, digests, identity and creation time. -/
theorem setup_replaces_record_when_status_read_fails :
    sample_enrolled.db.security_questions =
        some (enrolled_row sample_deps sample_env sample_setup) ∧
      (security_setup sample_deps sample_env_read_fails (some sample_setup_other)
        sample_enrolled).1 = 0 ∧
      (security_setup sample_deps sample_env_read_fails (some sample_setup_other)
        sample_enrolled).2.db.security_questions =
        some (enrolled_row sample_deps sample_env_read_fails sample_setup_other) ∧
      enrolled_row sample_deps sample_env_read_fails sample_setup_other ≠
        enrolled_row sample_deps sample_env sample_setup := by
  decide

/-- C2 (as stated, refuted): after a successful enrollment, a second request
whose first question is empty is answered with -2, the value of an invalid
input, not with -1, the value of AlreadyEnrolled. -/
theorem second_enroll_empty_field_not_already_enrolled :
    (security_setup sample_deps sample_env (some sample_setup) sample_world).1 = 0 ∧
      (security_setup sample_deps sample_env
        (some { sample_setup_other with question1 := [] }) sample_enrolled).1 = -2 ∧
      (security_setup sample_deps sample_env
        (some { sample_setup_other with question1 := [] }) sample_enrolled).1 ≠ -1 := by
  decide

/-- C2 (amended): after a first request that enrolls successfully, a second
request is answered with -1 (AlreadyEnrolled) when its four fields are
non-empty and the status read succeeds, and with -2 (InvalidInput) when one
of its fields is empty; in both cases the whole persistent state, and with
it the stored record, is the one left by the first call. -/
theorem second_enroll_rejected (d : Deps) (env1 env2 : Env)
    (req1 req2 : SecuritySetupRequest) (w : World)
    (h1 : (security_setup d env1 (some req1) w).1 = 0)
    (h2 : env2.fault 0 = false ∨ ¬ FieldsGiven req2) :
    (security_setup d env2 (some req2) (security_setup d env1 (some req1) w).2).1 =
        (if FieldsGiven req2 then -1 else -2) ∧
      (security_setup d env2 (some req2) (security_setup d env1 (some req1) w).2).2.db =
        (security_setup d env1 (some req1) w).2.db ∧
      (security_setup d env2 (some req2)
        (security_setup d env1 (some req1) w).2).2.db.security_questions =
        some (enrolled_row d env1 req1) := by
  obtain ⟨_, _, _, _, hdb⟩ := setup_success d env1 req1 w h1
  have hrow : (security_setup d env1 (some req1) w).2.db.security_questions =
      some (enrolled_row d env1 req1) := by rw [hdb]
  by_cases hfg : FieldsGiven req2
  · have hf : env2.fault 0 = false := by
      rcases h2 with h | h
      · exact h
      · exact absurd hfg h
    rw [setup_of_row d env2 req2 _ _ hrow hf hfg]
    simp [hfg, after_query, hrow]
  · rw [setup_of_empty_field d env2 req2 _ hfg]
    simp [hfg, hrow]

/-- Witness of C2 (amended): the scenario's enrollment followed by another
complete request. -/
theorem second_enroll_rejected_witness :
    (security_setup sample_deps sample_env (some sample_setup) sample_world).1 = 0 ∧
      (security_setup sample_deps sample_env_other_card (some sample_setup_other)
        (security_setup sample_deps sample_env (some sample_setup) sample_world).2).1 = -1 ∧
      (security_setup sample_deps sample_env_other_card (some sample_setup_other)
        (security_setup sample_deps sample_env (some sample_setup)
          sample_world).2).2.db.security_questions =
        some (enrolled_row sample_deps sample_env sample_setup) :=
  ⟨by decide,
    (second_enroll_rejected sample_deps sample_env sample_env_other_card sample_setup
      sample_setup_other sample_world (by decide) (Or.inl rfl)).1,
    (second_enroll_rejected sample_deps sample_env sample_env_other_card sample_setup
      sample_setup_other sample_world (by decide) (Or.inl rfl)).2.2⟩


/-- C3 (as stated, refuted): after the scenario's enrollment, Verify with the
exact answers, the exact phrase and the bound identity returns -2, not 0,
when the device identity cannot be resolved at verification time. -/
theorem identity_unavailable_after_enroll :
    (security_setup sample_deps sample_env (some sample_setup) sample_world).1 = 0 ∧
      sample_verify.confirm = sample_deps.SECURITY_CONFIRM_TEXT ∧
      sample_verify.answer1 = sample_setup.answer1 ∧
      sample_verify.answer2 = sample_setup.answer2 ∧
      sample_enrolled.db.security_questions.map (fun r => r.iccid) = some sample_verify.iccid ∧
      (security_verify sample_deps sample_env_no_identity (some sample_verify)
        sample_enrolled).1 = -2 ∧
      (security_verify sample_deps sample_env_no_identity (some sample_verify)
        sample_enrolled).1 ≠ 0 := by
  decide

/-- C3 (amended): after a successful enrollment whose digests have the form
of digests and whose identity is one line, Verify with the exact original
answers, the exact confirmation phrase and the bound identity as claimed
identity returns 0 (Success) whenever, at verification time, the record is
read and the device identity is resolved, whatever that identity is.  The
bound identity is the stored one: the device identity of enrollment time as
the store reads it from the quoted literal of the statement. -/
theorem verify_after_enroll (d : Deps) (env1 env2 : Env) (req : SecuritySetupRequest)
    (w : World) (hfit : BuffersFit d)
    (h1 : IsDigestText d (d.sha256_hash_string req.answer1))
    (h2 : IsDigestText d (d.sha256_hash_string req.answer2))
    (hnl : '\n' ∉ env1.iccid)
    (hs : (security_setup d env1 (some req) w).1 = 0)
    (hread : env2.fault 0 = false) (hid : env2.iccid_rc = 0) :
    ∃ r : SecurityRow,
      (security_setup d env1 (some req) w).2.db.security_questions = some r ∧
      sql_literal (get_iccid env1 d.SECURITY_ICCID_MAX_LEN).2 = some r.iccid ∧
      (security_verify d env2
        (some { confirm := d.SECURITY_CONFIRM_TEXT, answer1 := req.answer1,
                answer2 := req.answer2, iccid := r.iccid })
        (security_setup d env1 (some req) w).2).1 = 0 := by
  obtain ⟨_, _, hne, _, hdb⟩ := setup_success d env1 req w hs
  have hlit := (stored_row_some _ _ _ _ _ _ _ (setup_success_literals d env1 req w hs)).2.2.2.2.1
  obtain ⟨e1, e2⟩ := enrolled_row_digests d env1 req h1 h2
  have hrow : (security_setup d env1 (some req) w).2.db.security_questions =
      some (enrolled_row d env1 req) := by rw [hdb]
  refine ⟨enrolled_row d env1 req, hrow, hlit, ?_⟩
  rw [security_verify_set d env2 _ _ _ (enrolled_row_wf d env1 req h1 h2 hnl hne hfit) hrow hread]
  simp [spec_Verify, e1, e2, hid, verify_code]

/-- Witness of C3 (amended): the scenario's enrollment, verified later with
another card in the device. -/
theorem verify_after_enroll_witness :
    (security_setup sample_deps sample_env (some sample_setup) sample_world).1 = 0 ∧
      ∃ r : SecurityRow,
        (security_setup sample_deps sample_env (some sample_setup)
          sample_world).2.db.security_questions = some r ∧
        sql_literal (get_iccid sample_env sample_deps.SECURITY_ICCID_MAX_LEN).2 =
          some r.iccid ∧
        (security_verify sample_deps sample_env_other_card
          (some { confirm := sample_deps.SECURITY_CONFIRM_TEXT
                  answer1 := sample_setup.answer1
                  answer2 := sample_setup.answer2, iccid := r.iccid })
          (security_setup sample_deps sample_env (some sample_setup) sample_world).2).1 = 0 :=
  ⟨by decide,
    verify_after_enroll sample_deps sample_env sample_env_other_card sample_setup sample_world
      (by decide) (by decide) (by decide) (by decide) (by decide) rfl rfl⟩

/-- C4: a request whose confirmation phrase is not the required text is
answered with -3 (ConfirmationMismatch) in every state, for every answer
pair, identity, hash function and environment, and the world is left as it
was: no query is issued (nothing is added to the trace), so the record is
not read and the result does not depend on the state. -/
theorem verify_confirmation_gate (d : Deps) (env : Env) (req : SecurityVerifyRequest)
    (w : World) (h : req.confirm ≠ d.SECURITY_CONFIRM_TEXT) :
    security_verify d env (some req) w = (-3, w) :=
  verify_of_phrase d env req w h

/-- Witness of C4: the correct answers with a wrong phrase. -/
theorem verify_confirmation_gate_witness :
    ({ sample_verify with confirm := "confirm".toList } : SecurityVerifyRequest).confirm ≠
        sample_deps.SECURITY_CONFIRM_TEXT ∧
      security_verify sample_deps sample_env
        (some { sample_verify with confirm := "confirm".toList }) sample_enrolled =
        (-3, sample_enrolled) :=
  ⟨by decide,
    verify_confirmation_gate sample_deps sample_env
      { sample_verify with confirm := "confirm".toList } sample_enrolled (by decide)⟩


theorem verify_of_wrong_answer (d : Deps) (env : Env) (req : SecurityVerifyRequest) (w : World)
    (r : SecurityRow) (hdb : w.db.security_questions = some r) (hwf : RowWF d r)
    (hc : req.confirm = d.SECURITY_CONFIRM_TEXT)
    (hm : d.sha256_hash_string req.answer1 ≠ r.answer1_hash ∨
      d.sha256_hash_string req.answer2 ≠ r.answer2_hash) :
    (security_verify d env (some req) w).1 = -1 := by
  cases hf : env.fault 0
  · rw [security_verify_set d env req w r hwf hdb hf]
    have hn : ¬ (d.sha256_hash_string req.answer1 = r.answer1_hash ∧
        d.sha256_hash_string req.answer2 = r.answer2_hash) := by
      intro hx
      rcases hm with h | h
      · exact h hx.1
      · exact h hx.2
    simp [hc, spec_Verify, hn, verify_code]
  · rw [verify_of_fault d env req w hf hc]

/-- C5: for an enrolled record of the data model's form and a request with
the exact phrase, Verify returns -1 (AnswerMismatch) as soon as the digest of
answer 1 differs from the stored digest of slot 1 or the digest of answer 2
from that of slot 2, whatever the claimed identity and the environment
(current identity included).  In particular, for a record holding the
digests of `a1` and `a2`: the two answers swapped are rejected when their
digests differ, and so is either answer replaced by a text with another
digest, such as an answer altered in one character. -/
theorem verify_answer_mismatch (d : Deps) (env : Env) (w : World) (r : SecurityRow)
    (hdb : w.db.security_questions = some r) (hwf : RowWF d r) :
    (∀ req : SecurityVerifyRequest, req.confirm = d.SECURITY_CONFIRM_TEXT →
        (d.sha256_hash_string req.answer1 ≠ r.answer1_hash ∨
          d.sha256_hash_string req.answer2 ≠ r.answer2_hash) →
        (security_verify d env (some req) w).1 = -1) ∧
      (∀ a1 a2 claimed : CStr, r.answer1_hash = d.sha256_hash_string a1 →
        r.answer2_hash = d.sha256_hash_string a2 →
        d.sha256_hash_string a1 ≠ d.sha256_hash_string a2 →
        (security_verify d env
          (some { confirm := d.SECURITY_CONFIRM_TEXT, answer1 := a2, answer2 := a1,
                  iccid := claimed }) w).1 = -1) ∧
      (∀ a1 a2 altered claimed : CStr, r.answer1_hash = d.sha256_hash_string a1 →
        r.answer2_hash = d.sha256_hash_string a2 →
        ((d.sha256_hash_string altered ≠ d.sha256_hash_string a1 →
          (security_verify d env
            (some { confirm := d.SECURITY_CONFIRM_TEXT, answer1 := altered, answer2 := a2,
                    iccid := claimed }) w).1 = -1) ∧
         (d.sha256_hash_string altered ≠ d.sha256_hash_string a2 →
          (security_verify d env
            (some { confirm := d.SECURITY_CONFIRM_TEXT, answer1 := a1, answer2 := altered,
                    iccid := claimed }) w).1 = -1))) := by
  refine ⟨fun req hc hm => verify_of_wrong_answer d env req w r hdb hwf hc hm, ?_, ?_⟩
  · intro a1 a2 claimed e1 e2 hne
    apply verify_of_wrong_answer d env _ w r hdb hwf rfl
    left
    simp only [e1]
    exact fun h => hne h.symm
  · intro a1 a2 altered claimed e1 e2
    constructor
    · intro hne
      apply verify_of_wrong_answer d env _ w r hdb hwf rfl
      left
      simpa only [e1] using hne
    · intro hne
      apply verify_of_wrong_answer d env _ w r hdb hwf rfl
      right
      simpa only [e2] using hne

/-- Witness of C5: the scenario's record; the request with answer 1 written
`Paris`, the two answers swapped, and `rex` altered to `rez`, are rejected,
here with another card in the device. -/
theorem verify_answer_mismatch_witness :
    sample_enrolled.db.security_questions =
        some (enrolled_row sample_deps sample_env sample_setup) ∧
      RowWF sample_deps (enrolled_row sample_deps sample_env sample_setup) ∧
      (security_verify sample_deps sample_env_other_card
        (some { sample_verify with answer1 := "Paris".toList }) sample_enrolled).1 = -1 ∧
      (security_verify sample_deps sample_env_other_card
        (some { confirm := sample_deps.SECURITY_CONFIRM_TEXT, answer1 := "rex".toList
                answer2 := "paris".toList, iccid := "8986001".toList }) sample_enrolled).1 = -1 ∧
      (security_verify sample_deps sample_env_other_card
        (some { confirm := sample_deps.SECURITY_CONFIRM_TEXT, answer1 := "paris".toList
                answer2 := "rez".toList, iccid := "8986001".toList }) sample_enrolled).1 = -1 :=
  ⟨by decide, by decide,
    (verify_answer_mismatch sample_deps sample_env_other_card sample_enrolled
      (enrolled_row sample_deps sample_env sample_setup) (by decide) (by decide)).1
      { sample_verify with answer1 := "Paris".toList } (by decide) (Or.inl (by decide)),
    (verify_answer_mismatch sample_deps sample_env_other_card sample_enrolled
      (enrolled_row sample_deps sample_env sample_setup) (by decide) (by decide)).2.1
      "paris".toList "rex".toList "8986001".toList (by decide) (by decide) (by decide),
    ((verify_answer_mismatch sample_deps sample_env_other_card sample_enrolled
      (enrolled_row sample_deps sample_env sample_setup) (by decide) (by decide)).2.2
      "paris".toList "rex".toList "rez".toList "8986001".toList (by decide) (by decide)).2
      (by decide)⟩


/-- C7 (as stated, refuted): on the scenario's record, a request with the
exact phrase and both correct answers while `get_iccid` fails is answered
with -1, not with -2 (IdentityUnavailable), when the read of the record
fails: the identity is resolved only after the record has been read. -/
theorem verify_unread_record_not_identity_unavailable :
    sample_enrolled.db.security_questions =
        some (enrolled_row sample_deps sample_env sample_setup) ∧
      sample_verify.confirm = sample_deps.SECURITY_CONFIRM_TEXT ∧
      sample_deps.sha256_hash_string sample_verify.answer1 =
        (enrolled_row sample_deps sample_env sample_setup).answer1_hash ∧
      sample_deps.sha256_hash_string sample_verify.answer2 =
        (enrolled_row sample_deps sample_env sample_setup).answer2_hash ∧
      sample_env_read_fails_no_identity.iccid_rc ≠ 0 ∧
      (security_verify sample_deps sample_env_read_fails_no_identity (some sample_verify)
        sample_enrolled).1 = -1 ∧
      (security_verify sample_deps sample_env_read_fails_no_identity (some sample_verify)
        sample_enrolled).1 ≠ -2 := by
  decide

/-- C7 (amended): for an enrolled record of the data model's form and a
request with the exact phrase and both correct answers, when the record is
read and `get_iccid` fails, Verify returns -2 (IdentityUnavailable), also
when the claimed identity is the bound identity. -/
theorem verify_identity_unavailable (d : Deps) (env : Env) (req : SecurityVerifyRequest)
    (w : World) (r : SecurityRow) (hdb : w.db.security_questions = some r) (hwf : RowWF d r)
    (hc : req.confirm = d.SECURITY_CONFIRM_TEXT)
    (ha1 : d.sha256_hash_string req.answer1 = r.answer1_hash)
    (ha2 : d.sha256_hash_string req.answer2 = r.answer2_hash)
    (hread : env.fault 0 = false) (hid : env.iccid_rc ≠ 0) :
    (security_verify d env (some req) w).1 = -2 ∧
      spec_Verify d env (some r) req = VerifyOutcome.IdentityUnavailable := by
  rw [security_verify_set d env req w r hwf hdb hread]
  simp [hc, spec_Verify, ha1, ha2, hid, verify_code]

/-- Witness of C7 (amended): the scenario's record, the request claiming the bound
identity, no card in the device. -/
theorem verify_identity_unavailable_witness :
    sample_verify.iccid = (enrolled_row sample_deps sample_env sample_setup).iccid ∧
      sample_env_no_identity.iccid_rc ≠ 0 ∧
      (security_verify sample_deps sample_env_no_identity (some sample_verify)
        sample_enrolled).1 = -2 :=
  ⟨by decide, by decide,
    (verify_identity_unavailable sample_deps sample_env_no_identity sample_verify
      sample_enrolled (enrolled_row sample_deps sample_env sample_setup) (by decide)
      (by decide) (by decide) (by decide) (by decide) rfl (by decide)).1⟩

/-- C9: whatever the state, the request (a null request included), the
environment and the result, the persistent state after `security_verify` is
the state before: recovery record, configuration with the credential hash,
tokens and every other table. -/
theorem verify_leaves_state (d : Deps) (env : Env) (req : Option SecurityVerifyRequest)
    (w : World) : (security_verify d env req w).2.db = w.db :=
  verify_keeps_db d env req w

/-- C10: when Verify fails, `security_reset_password` and
`security_factory_reset` return the very value Verify returns and leave the
world as Verify alone leaves it: the persistent state is unchanged and no
call beyond the read of Verify is made, so no statement is executed and the
restart is not triggered.  In every run, a call beyond those of Verify (a
`config_set`, a deletion, the compaction, the restart) is made only if
Verify returned 0. -/
theorem privileged_actions_gated (d : Deps) (env : Env) (req : Option SecurityVerifyRequest)
    (w : World) :
    ((security_verify d env req w).1 ≠ 0 →
        security_reset_password d env req w = security_verify d env req w ∧
        security_factory_reset d env req w = security_verify d env req w ∧
        (security_reset_password d env req w).2.db = w.db ∧
        (security_factory_reset d env req w).2.db = w.db ∧
        (∀ c, Event.system c ∈ (security_factory_reset d env req w).2.trace →
          Event.system c ∈ w.trace) ∧
        (∀ s, Event.execute s ∈ (security_factory_reset d env req w).2.trace →
          Event.execute s ∈ w.trace)) ∧
      ((security_factory_reset d env req w).2.trace ≠ (security_verify d env req w).2.trace →
        (security_verify d env req w).1 = 0) ∧
      ((security_reset_password d env req w).2.trace ≠ (security_verify d env req w).2.trace →
        (security_verify d env req w).1 = 0) := by
  refine ⟨fun h => ?_, fun h => ?_, fun h => ?_⟩
  · have hr := reset_of_failed_verify d env req w h
    have hfr := factory_of_failed_verify d env req w h
    refine ⟨hr, hfr, ?_, ?_, ?_, ?_⟩
    · rw [hr]; exact verify_keeps_db d env req w
    · rw [hfr]; exact verify_keeps_db d env req w
    · intro c hc
      rw [hfr] at hc
      rcases verify_world d env req w with e | e
      · rw [e] at hc; exact hc
      · rw [e] at hc; simpa [after_query] using hc
    · intro s hs
      rw [hfr] at hs
      rcases verify_world d env req w with e | e
      · rw [e] at hs; exact hs
      · rw [e] at hs; simpa [after_query] using hs
  · by_contra hv
    exact h (by rw [factory_of_failed_verify d env req w hv])
  · by_contra hv
    exact h (by rw [reset_of_failed_verify d env req w hv])

/-- Witness of C10: the scenario's record and a request with a wrong answer;
both actions return -1 and leave the enrolled state, the restart is not
called. -/
theorem privileged_actions_gated_witness :
    (security_verify sample_deps sample_env
        (some { sample_verify with answer2 := "max".toList }) sample_enrolled).1 ≠ 0 ∧
      (security_reset_password sample_deps sample_env
        (some { sample_verify with answer2 := "max".toList }) sample_enrolled).1 = -1 ∧
      (security_factory_reset sample_deps sample_env
        (some { sample_verify with answer2 := "max".toList }) sample_enrolled).2.db =
        sample_enrolled.db :=
  ⟨by decide, by decide,
    ((privileged_actions_gated sample_deps sample_env
      (some { sample_verify with answer2 := "max".toList }) sample_enrolled).1
      (by decide)).2.2.2.1⟩


theorem config_set_keeps_row (fail : Bool) (k v : CStr) (w : World) :
    (config_set fail k v w).2.db.security_questions = w.db.security_questions := by
  unfold config_set
  cases fail <;> rfl

theorem purge_tokens_keeps_row (fail : Bool) (w : World) :
    (db_execute fail (Stmt.delete_from "auth_tokens".toList) w).2.db.security_questions =
      w.db.security_questions := by
  have h1 : ¬ ("auth_tokens".toList = "security_questions".toList) := by decide
  have h2 : ¬ ("auth_tokens".toList = "config".toList) := by decide
  unfold db_execute
  cases fail
  · simp only [apply_stmt, h1, h2, if_false, Bool.false_eq_true]
    split
    · rename_i db hdb
      split at hdb
      · cases hdb; rfl
      · cases hdb
    · rfl
  · rfl

theorem reset_keeps_row (d : Deps) (env : Env) (req : Option SecurityVerifyRequest)
    (w : World) :
    (security_reset_password d env req w).2.db.security_questions =
      w.db.security_questions := by
  unfold security_reset_password
  dsimp only
  have hv := verify_keeps_db d env req w
  split
  · rw [hv]
  · split
    · rw [config_set_keeps_row, hv]
    · rw [purge_tokens_keeps_row, config_set_keeps_row, hv]

/-- Immutability where the code achieves it: in a state that holds a recovery
record, the record after `security_get_status`, `security_get_questions`,
`security_verify` and `security_reset_password` is the record before, for
every argument and environment, and so it is after `security_setup` whenever
the status read of that call succeeds. -/
theorem record_kept_when_status_is_read (d : Deps) (env : Env) (w : World) (r : SecurityRow)
    (hdb : w.db.security_questions = some r) :
    (∀ req, env.fault 0 = false →
        (security_setup d env req w).2.db.security_questions = some r) ∧
      (∀ s, (security_get_status d env s w).2.db.security_questions = some r) ∧
      (∀ q, (security_get_questions d env q w).2.db.security_questions = some r) ∧
      (∀ req, (security_verify d env req w).2.db.security_questions = some r) ∧
      (∀ req, (security_reset_password d env req w).2.db.security_questions = some r) := by
  refine ⟨?_, ?_, ?_, ?_, ?_⟩
  · intro req hf
    cases req with
    | none => exact hdb
    | some rq =>
      by_cases hfg : FieldsGiven rq
      · rw [setup_of_row d env rq w r hdb hf hfg]
        exact hdb
      · rw [setup_of_empty_field d env rq w hfg]
        exact hdb
  · intro s
    rcases status_world d env s w with e | e <;> rw [e] <;> exact hdb
  · intro q
    rcases questions_world d env q w with e | e <;> rw [e] <;> exact hdb
  · intro req
    rw [verify_keeps_db]
    exact hdb
  · intro req
    rw [reset_keeps_row]
    exact hdb

/-- Example of the immutability: a second complete enrollment request on the
scenario's record, with a successful status read. -/
theorem record_kept_when_status_is_read_witness :
    (security_setup sample_deps sample_env_other_card (some sample_setup_other)
      sample_enrolled).2.db.security_questions =
      some (enrolled_row sample_deps sample_env sample_setup) :=
  (record_kept_when_status_is_read sample_deps sample_env_other_card sample_enrolled
    (enrolled_row sample_deps sample_env sample_setup) (by decide)).1
    (some sample_setup_other) rfl


/-! ## The privileged actions after a successful verification -/

theorem verify_success_world (d : Deps) (env : Env) (req : Option SecurityVerifyRequest)
    (w : World) (h : (security_verify d env req w).1 = 0) :
    (security_verify d env req w).2 = after_query Query.verify w := by
  unfold security_verify at h ⊢
  dsimp only at h ⊢
  repeat' split
  all_goals first
    | exact query_world _ _ _ _ _
    | (exfalso; revert h; simp [*])

theorem verify_value (d : Deps) (env : Env) (req : Option SecurityVerifyRequest) (w : World) :
    (security_verify d env req w).1 = 0 ∨ (security_verify d env req w).1 = -1 ∨
      (security_verify d env req w).1 = -2 ∨ (security_verify d env req w).1 = -3 := by
  unfold security_verify
  dsimp only
  repeat' split
  all_goals simp

theorem table_rows_clear (t u : CStr) (tables : List (CStr × List Row)) :
    table_rows t (clear_table u tables) = if t = u then [] else table_rows t tables := by
  induction tables with
  | nil => simp [clear_table, table_rows]
  | cons p ps ih =>
    unfold clear_table at ih ⊢
    by_cases htu : t = u
    · subst htu
      simp only [if_true] at ih
      by_cases hpt : p.1 = t
      · simp [table_rows, hpt, ih]
      · simp [table_rows, hpt, ih]
    · simp only [htu, if_false] at ih
      by_cases hpu : p.1 = u
      · have hpt : ¬ p.1 = t := fun e => htu (e.symm.trans hpu)
        have hut : ¬ u = t := fun e => htu e.symm
        simp [table_rows, hpu, hpt, hut, htu, ih]
      · by_cases hpt : p.1 = t
        · simp [table_rows, hpu, hpt, htu, ih]
        · simp [table_rows, hpu, hpt, htu, ih]

theorem table_rows_of_not_mem (t : CStr) (tables : List (CStr × List Row))
    (h : t ∉ tables.map Prod.fst) : table_rows t tables = [] := by
  induction tables with
  | nil => rfl
  | cons p ps ih =>
    simp only [List.map_cons, List.mem_cons, not_or] at h
    have hp : ¬ p.1 = t := fun e => h.1 e.symm
    simp [table_rows, hp, ih h.2]

theorem config_get_put (key value : CStr) (config : List (CStr × CStr)) :
    config_get key (config_put key value config) = some value := by
  simp [config_put, config_get]

theorem purge_tokens_ok (w : World) :
    auth_tokens (db_execute false (Stmt.delete_from "auth_tokens".toList) w).2.db = [] ∧
      (db_execute false (Stmt.delete_from "auth_tokens".toList) w).2.db.config = w.db.config ∧
      (db_execute false (Stmt.delete_from "auth_tokens".toList) w).2.trace =
        w.trace ++ [Event.execute (Stmt.delete_from "auth_tokens".toList)] := by
  have hn1 : ¬ ("auth_tokens".toList = "security_questions".toList) := by decide
  have hn2 : ¬ ("auth_tokens".toList = "config".toList) := by decide
  unfold db_execute
  simp only [apply_stmt, hn1, hn2, if_false, Bool.false_eq_true]
  by_cases hm : "auth_tokens".toList ∈ List.map Prod.fst w.db.tables
  · rw [if_pos hm]
    refine ⟨?_, rfl, rfl⟩
    simp only [auth_tokens, table_rows_clear, if_true]
  · rw [if_neg hm]
    refine ⟨?_, rfl, rfl⟩
    simp only [auth_tokens]
    exact table_rows_of_not_mem _ _ hm

theorem reset_eq_of_verify (d : Deps) (env : Env) (req : Option SecurityVerifyRequest)
    (w : World) (hv : (security_verify d env req w).1 = 0) (h1 : env.fault 1 = false) :
    security_reset_password d env req w =
      (0, (db_execute (env.fault 2) (Stmt.delete_from "auth_tokens".toList)
        { db := { w.db with
                  config := config_put "auth_password_hash".toList
                    (d.sha256_hash_string d.AUTH_DEFAULT_PASSWORD) w.db.config }
          trace := w.trace ++ [Event.query Query.verify] ++
            [Event.config_set "auth_password_hash".toList
              (d.sha256_hash_string d.AUTH_DEFAULT_PASSWORD)] }).2) := by
  have hw := verify_success_world d env req w hv
  unfold security_reset_password
  simp only [hv, hw, h1, config_set, after_query, ne_eq, not_true_eq_false, if_false,
    Bool.false_eq_true]

theorem reset_after_verify (d : Deps) (env : Env) (req : Option SecurityVerifyRequest)
    (w : World) (hv : (security_verify d env req w).1 = 0) (h1 : env.fault 1 = false)
    (h2 : env.fault 2 = false) :
    (security_reset_password d env req w).1 = 0 ∧
      config_get "auth_password_hash".toList (security_reset_password d env req w).2.db.config =
        some (d.sha256_hash_string d.AUTH_DEFAULT_PASSWORD) ∧
      auth_tokens (security_reset_password d env req w).2.db = [] ∧
      (security_reset_password d env req w).2.trace =
        w.trace ++ [Event.query Query.verify,
          Event.config_set "auth_password_hash".toList
            (d.sha256_hash_string d.AUTH_DEFAULT_PASSWORD),
          Event.execute (Stmt.delete_from "auth_tokens".toList)] ∧
      (security_reset_password d env req w).2.db.security_questions =
        w.db.security_questions := by
  refine ⟨?_, ?_, ?_, ?_, reset_keeps_row d env req w⟩
  all_goals rw [reset_eq_of_verify d env req w hv h1, h2]
  · rw [(purge_tokens_ok _).2.1]
    exact config_get_put _ _ _
  · exact (purge_tokens_ok _).1
  · rw [(purge_tokens_ok _).2.2]
    simp only [List.append_assoc, List.cons_append, List.nil_append]


theorem reset_of_failed_write (d : Deps) (env : Env) (req : Option SecurityVerifyRequest)
    (w : World) (hv : (security_verify d env req w).1 = 0) (h1 : env.fault 1 = true) :
    security_reset_password d env req w =
      (-4, { db := w.db
             trace := w.trace ++ [Event.query Query.verify] ++
               [Event.config_set "auth_password_hash".toList
                 (d.sha256_hash_string d.AUTH_DEFAULT_PASSWORD)] }) := by
  have hw := verify_success_world d env req w hv
  unfold security_reset_password
  simp only [hv, hw, h1, config_set, after_query, ne_eq, not_true_eq_false, if_false, if_true]
  simp

/-- C11 (violated by the code): on the scenario's record with one token, a
request on which Verify succeeds and a token purge that fails,
`security_reset_password` writes the credential hash and returns 0 (Success)
although the token is still there. -/
theorem reset_password_success_with_tokens_left :
    (security_verify sample_deps sample_env_purge_fails (some sample_verify)
        sample_enrolled).1 = 0 ∧
      (security_reset_password sample_deps sample_env_purge_fails (some sample_verify)
        sample_enrolled).1 = 0 ∧
      config_get "auth_password_hash".toList
        (security_reset_password sample_deps sample_env_purge_fails (some sample_verify)
          sample_enrolled).2.db.config =
        some (sample_deps.sha256_hash_string sample_deps.AUTH_DEFAULT_PASSWORD) ∧
      auth_tokens (security_reset_password sample_deps sample_env_purge_fails
        (some sample_verify) sample_enrolled).2.db = [["token".toList]] := by
  decide

/-- The password reset where the code achieves it: when Verify succeeds and
both store calls of the action succeed, `security_reset_password` returns 0,
the value under `auth_password_hash` is the digest of the default password,
no authentication token is left, the calls are the read of Verify, then the
credential write, then the token purge, and the recovery record is the one
before. -/
theorem reset_password_effect (d : Deps) (env : Env) (req : Option SecurityVerifyRequest)
    (w : World) (hv : (security_verify d env req w).1 = 0) (h1 : env.fault 1 = false)
    (h2 : env.fault 2 = false) :
    (security_reset_password d env req w).1 = 0 ∧
      config_get "auth_password_hash".toList (security_reset_password d env req w).2.db.config =
        some (d.sha256_hash_string d.AUTH_DEFAULT_PASSWORD) ∧
      auth_tokens (security_reset_password d env req w).2.db = [] ∧
      (security_reset_password d env req w).2.trace =
        w.trace ++ [Event.query Query.verify,
          Event.config_set "auth_password_hash".toList
            (d.sha256_hash_string d.AUTH_DEFAULT_PASSWORD),
          Event.execute (Stmt.delete_from "auth_tokens".toList)] ∧
      (security_reset_password d env req w).2.db.security_questions =
        w.db.security_questions :=
  reset_after_verify d env req w hv h1 h2

/-- Example of the password reset: the scenario's record and request. -/
theorem reset_password_effect_witness :
    (security_verify sample_deps sample_env (some sample_verify) sample_enrolled).1 = 0 ∧
      auth_tokens (security_reset_password sample_deps sample_env (some sample_verify)
        sample_enrolled).2.db = [] :=
  ⟨by decide,
    (reset_password_effect sample_deps sample_env (some sample_verify) sample_enrolled
      (by decide) rfl rfl).2.2.1⟩

/-- C16: for an enrolled record of the data model's form and two requests
with the exact phrase, each with a mismatch in the digest of answer 1, of
answer 2 or of both, `security_verify` returns the same value (-1) and leaves
the same world (the unchanged state and the one read), whatever the
identities. -/
theorem verify_hides_wrong_answer (d : Deps) (env : Env) (w : World) (r : SecurityRow)
    (req1 req2 : SecurityVerifyRequest)
    (hdb : w.db.security_questions = some r) (hwf : RowWF d r)
    (hc1 : req1.confirm = d.SECURITY_CONFIRM_TEXT) (hc2 : req2.confirm = d.SECURITY_CONFIRM_TEXT)
    (hm1 : d.sha256_hash_string req1.answer1 ≠ r.answer1_hash ∨
      d.sha256_hash_string req1.answer2 ≠ r.answer2_hash)
    (hm2 : d.sha256_hash_string req2.answer1 ≠ r.answer1_hash ∨
      d.sha256_hash_string req2.answer2 ≠ r.answer2_hash) :
    security_verify d env (some req1) w = security_verify d env (some req2) w ∧
      (security_verify d env (some req1) w).1 = -1 ∧
      (security_verify d env (some req1) w).2.db = w.db := by
  have key : ∀ req : SecurityVerifyRequest, req.confirm = d.SECURITY_CONFIRM_TEXT →
      (d.sha256_hash_string req.answer1 ≠ r.answer1_hash ∨
        d.sha256_hash_string req.answer2 ≠ r.answer2_hash) →
      security_verify d env (some req) w = (-1, after_query Query.verify w) := by
    intro req hc hm
    have h1 := verify_of_wrong_answer d env req w r hdb hwf hc hm
    have h2 : (security_verify d env (some req) w).2 = after_query Query.verify w := by
      rcases verify_world d env (some req) w with e | e
      · cases hf : env.fault 0
        · rw [security_verify_set d env req w r hwf hdb hf]
          simp [hc]
        · rw [verify_of_fault d env req w hf hc]
      · exact e
    exact Prod.ext h1 h2
  rw [key req1 hc1 hm1, key req2 hc2 hm2]
  exact ⟨rfl, rfl, rfl⟩

/-- Witness of C16: on the scenario's record, a request with only answer 1
wrong and a request with only answer 2 wrong. -/
theorem verify_hides_wrong_answer_witness :
    security_verify sample_deps sample_env
        (some { sample_verify with answer1 := "Paris".toList }) sample_enrolled =
      security_verify sample_deps sample_env
        (some { sample_verify with answer2 := "max".toList }) sample_enrolled :=
  (verify_hides_wrong_answer sample_deps sample_env sample_enrolled
    (enrolled_row sample_deps sample_env sample_setup)
    { sample_verify with answer1 := "Paris".toList }
    { sample_verify with answer2 := "max".toList }
    (by decide) (by decide) (by decide) (by decide) (Or.inl (by decide))
    (Or.inr (by decide))).1

/-- C17 (violated by the code): with Verify succeeding, a password reset
whose token purge fails returns 0 and leaves the token, and a factory reset in
which the deletion of table `sms` and the compaction fail returns 0, leaves
the message and still calls the restart. -/
theorem store_failures_swallowed :
    (security_reset_password sample_deps sample_env_purge_fails (some sample_verify)
        sample_enrolled_sms).1 = 0 ∧
      auth_tokens (security_reset_password sample_deps sample_env_purge_fails
        (some sample_verify) sample_enrolled_sms).2.db ≠ [] ∧
      (security_factory_reset sample_deps sample_env_late_failures (some sample_verify)
        sample_enrolled_sms).1 = 0 ∧
      table_rows "sms".toList (security_factory_reset sample_deps sample_env_late_failures
        (some sample_verify) sample_enrolled_sms).2.db.tables = [["hello".toList]] ∧
      Event.system "reboot".toList ∈ (security_factory_reset sample_deps
        sample_env_late_failures (some sample_verify) sample_enrolled_sms).2.trace := by
  decide

/-- C18: when Verify succeeds and the write of the default credential hash
fails, `security_reset_password` returns -4, a value that is neither 0 nor
any value `security_verify` returns; the persistent state (tokens,
configuration with the previous credential hash, recovery record) is the one
before, and the calls made are the read of Verify and the failed write
only: no statement, so no token purge, is executed. -/
theorem reset_password_store_error (d : Deps) (env : Env) (req : Option SecurityVerifyRequest)
    (w : World) (hv : (security_verify d env req w).1 = 0) (h1 : env.fault 1 = true) :
    (security_reset_password d env req w).1 = -4 ∧
      (∀ (env2 : Env) (req2 : Option SecurityVerifyRequest) (w2 : World),
        (security_verify d env2 req2 w2).1 ≠ (security_reset_password d env req w).1) ∧
      (security_reset_password d env req w).2.db = w.db ∧
      (security_reset_password d env req w).2.trace =
        w.trace ++ [Event.query Query.verify,
          Event.config_set "auth_password_hash".toList
            (d.sha256_hash_string d.AUTH_DEFAULT_PASSWORD)] ∧
      (∀ s, Event.execute s ∈ (security_reset_password d env req w).2.trace →
        Event.execute s ∈ w.trace) := by
  rw [reset_of_failed_write d env req w hv h1]
  refine ⟨rfl, ?_, rfl, ?_, ?_⟩
  · intro env2 req2 w2
    show (security_verify d env2 req2 w2).1 ≠ -4
    rcases verify_value d env2 req2 w2 with e | e | e | e <;> rw [e] <;> decide
  · simp only [List.append_assoc, List.cons_append, List.nil_append]
  · intro s hs
    simpa using hs

/-- Witness of C18: the scenario's record and request with a failing
credential write; the token and the previous hash are kept. -/
theorem reset_password_store_error_witness :
    (security_verify sample_deps sample_env_write_fails (some sample_verify)
        sample_enrolled).1 = 0 ∧
      (security_reset_password sample_deps sample_env_write_fails (some sample_verify)
        sample_enrolled).1 = -4 ∧
      (security_reset_password sample_deps sample_env_write_fails (some sample_verify)
        sample_enrolled).2.db = sample_enrolled.db :=
  ⟨by decide,
    (reset_password_store_error sample_deps sample_env_write_fails (some sample_verify)
      sample_enrolled (by decide) rfl).1,
    (reset_password_store_error sample_deps sample_env_write_fails (some sample_verify)
      sample_enrolled (by decide) rfl).2.2.1⟩


/-! ## The factory reset after a successful verification -/

theorem execute_trace (fail : Bool) (s : Stmt) (w : World) :
    (db_execute fail s w).2.trace = w.trace ++ [Event.execute s] := by
  unfold db_execute
  dsimp only
  split
  · rfl
  · split <;> rfl

theorem delete_db (fail : Bool) (u : CStr) (w : World) :
    (db_execute fail (Stmt.delete_from u) w).2.db = w.db ∨
      (fail = false ∧ u = "security_questions".toList ∧
        (db_execute fail (Stmt.delete_from u) w).2.db =
          { w.db with security_questions := none }) ∨
      (fail = false ∧ u ≠ "security_questions".toList ∧ u = "config".toList ∧
        (db_execute fail (Stmt.delete_from u) w).2.db = { w.db with config := [] }) ∨
      (fail = false ∧ u ≠ "security_questions".toList ∧ u ≠ "config".toList ∧
        (db_execute fail (Stmt.delete_from u) w).2.db =
          { w.db with tables := clear_table u w.db.tables }) := by
  have hcs : ¬ ("config".toList = "security_questions".toList) := by decide
  unfold db_execute
  cases fail
  · by_cases h1 : u = "security_questions".toList
    · right; left
      refine ⟨rfl, h1, ?_⟩
      simp only [apply_stmt, h1, if_true, Bool.false_eq_true, if_false]
    · by_cases h2 : u = "config".toList
      · right; right; left
        refine ⟨rfl, h1, h2, ?_⟩
        subst h2
        simp only [apply_stmt, hcs, if_true, Bool.false_eq_true, if_false]
      · by_cases h3 : u ∈ List.map Prod.fst w.db.tables
        · right; right; right
          refine ⟨rfl, h1, h2, ?_⟩
          simp only [apply_stmt, h1, h2, h3, if_true, Bool.false_eq_true, if_false]
        · left
          simp only [apply_stmt, h1, h2, h3, Bool.false_eq_true, if_false]
  · left
    rfl

theorem delete_keeps_empty (fail : Bool) (t u : CStr) (w : World)
    (h : collection_empty t w.db) :
    collection_empty t (db_execute fail (Stmt.delete_from u) w).2.db := by
  have hcs : ¬ ("config".toList = "security_questions".toList) := by decide
  rcases delete_db fail u w with e | ⟨_, _, e⟩ | ⟨_, _, _, e⟩ | ⟨_, _, _, e⟩ <;> rw [e]
  · exact h
  · unfold collection_empty at h ⊢
    by_cases h1 : t = "security_questions".toList
    · rw [if_pos h1]
    · rw [if_neg h1] at h ⊢
      exact h
  · unfold collection_empty at h ⊢
    by_cases h1 : t = "security_questions".toList
    · rw [if_pos h1] at h ⊢
      exact h
    · rw [if_neg h1] at h ⊢
      by_cases h2 : t = "config".toList
      · rw [if_pos h2]
      · rw [if_neg h2] at h ⊢
        exact h
  · unfold collection_empty at h ⊢
    by_cases h1 : t = "security_questions".toList
    · rw [if_pos h1] at h ⊢
      exact h
    · rw [if_neg h1] at h ⊢
      by_cases h2 : t = "config".toList
      · rw [if_pos h2] at h ⊢
        exact h
      · rw [if_neg h2] at h ⊢
        show table_rows t (clear_table u w.db.tables) = []
        rw [table_rows_clear, h]
        simp

theorem delete_empties (t : CStr) (w : World) :
    collection_empty t (db_execute false (Stmt.delete_from t) w).2.db := by
  have hcs : ¬ ("config".toList = "security_questions".toList) := by decide
  by_cases h1 : t = "security_questions".toList
  · subst h1
    unfold db_execute collection_empty
    simp only [apply_stmt, if_true, Bool.false_eq_true, if_false]
  · by_cases h2 : t = "config".toList
    · subst h2
      unfold db_execute collection_empty
      simp only [apply_stmt, hcs, if_true, Bool.false_eq_true, if_false]
    · by_cases h3 : t ∈ List.map Prod.fst w.db.tables
      · unfold db_execute collection_empty
        simp only [apply_stmt, h1, h2, h3, if_true, Bool.false_eq_true, if_false]
        rw [table_rows_clear]
        simp
      · unfold db_execute collection_empty
        simp only [apply_stmt, h1, h2, h3, Bool.false_eq_true, if_false]
        exact table_rows_of_not_mem _ _ h3

theorem delete_tables_trace (env : Env) (ts : List CStr) :
    ∀ (k : Nat) (w : World), (delete_tables env k ts w).trace =
      w.trace ++ ts.map (fun t => Event.execute (Stmt.delete_from t)) := by
  induction ts with
  | nil => intro k w; simp [delete_tables]
  | cons t ts ih =>
    intro k w
    simp only [delete_tables, ih, execute_trace, List.map_cons, List.append_assoc,
      List.cons_append, List.nil_append]

theorem delete_tables_keeps_empty (env : Env) (t : CStr) (ts : List CStr) :
    ∀ (k : Nat) (w : World), collection_empty t w.db →
      collection_empty t (delete_tables env k ts w).db := by
  induction ts with
  | nil => intro k w h; exact h
  | cons u us ih =>
    intro k w h
    simp only [delete_tables]
    exact ih _ _ (delete_keeps_empty _ t u w h)

theorem delete_tables_empties (env : Env) (ts : List CStr) :
    ∀ (k : Nat) (w : World), (∀ i, i < ts.length → env.fault (k + i) = false) →
      ∀ t ∈ ts, collection_empty t (delete_tables env k ts w).db := by
  induction ts with
  | nil => intro k w _ t ht; cases ht
  | cons u us ih =>
    intro k w hf t ht
    simp only [delete_tables]
    have h0 : env.fault k = false := by simpa using hf 0 (by simp)
    rcases List.mem_cons.mp ht with e | e
    · subst e
      apply delete_tables_keeps_empty
      rw [h0]
      exact delete_empties t w
    · apply ih (k + 1) _ _ t e
      intro i hi
      have := hf (i + 1) (by simpa using hi)
      rw [← this]
      congr 1
      omega

theorem factory_eq_of_verify (d : Deps) (env : Env) (req : Option SecurityVerifyRequest)
    (w : World) (hv : (security_verify d env req w).1 = 0) :
    security_factory_reset d env req w =
      (0, system "reboot".toList
        (db_execute (env.fault 15) Stmt.vacuum
          (delete_tables env 1 factory_reset_tables (after_query Query.verify w))).2) := by
  have hw := verify_success_world d env req w hv
  unfold security_factory_reset
  simp only [hv, hw, ne_eq, not_true_eq_false, if_false]

theorem vacuum_db (fail : Bool) (w : World) : (db_execute fail Stmt.vacuum w).2.db = w.db := by
  unfold db_execute
  cases fail <;> rfl

theorem factory_after_verify (d : Deps) (env : Env) (req : Option SecurityVerifyRequest)
    (w : World) (hv : (security_verify d env req w).1 = 0) :
    (security_factory_reset d env req w).1 = 0 ∧
      (security_factory_reset d env req w).2.trace =
        w.trace ++ Event.query Query.verify :: factory_reset_calls ∧
      ((∀ k, 1 ≤ k → k ≤ 14 → env.fault k = false) →
        ∀ t ∈ factory_reset_tables,
          collection_empty t (security_factory_reset d env req w).2.db) := by
  rw [factory_eq_of_verify d env req w hv]
  refine ⟨rfl, ?_, ?_⟩
  · simp only [system, execute_trace, delete_tables_trace, after_query, factory_reset_calls,
      List.append_assoc, List.cons_append, List.nil_append]
  · intro hf t ht
    show collection_empty t (db_execute (env.fault 15) Stmt.vacuum _).2.db
    rw [vacuum_db]
    apply delete_tables_empties env factory_reset_tables 1 _ _ t ht
    intro i hi
    apply hf
    · omega
    · have : factory_reset_tables.length = 14 := rfl
      omega


/-- C12 (violated by the code): on the scenario's record, with Verify
succeeding and the deletion from `security_questions` failing,
`security_factory_reset` returns 0 and calls the restart as its last call
although the recovery record is still there (GetStatus reports it). -/
theorem factory_reset_success_with_record_left :
    (security_verify sample_deps sample_env_write_fails (some sample_verify)
        sample_enrolled).1 = 0 ∧
      (security_factory_reset sample_deps sample_env_write_fails (some sample_verify)
        sample_enrolled).1 = 0 ∧
      (security_factory_reset sample_deps sample_env_write_fails (some sample_verify)
        sample_enrolled).2.db.security_questions =
        some (enrolled_row sample_deps sample_env sample_setup) ∧
      (security_factory_reset sample_deps sample_env_write_fails (some sample_verify)
        sample_enrolled).2.trace.getLast? = some (Event.system "reboot".toList) ∧
      status_is_set (security_get_status sample_deps sample_env
        (some { is_set := 0, iccid := [], created_at := 0 })
        (security_factory_reset sample_deps sample_env_write_fails (some sample_verify)
          sample_enrolled).2).1.2 = 1 := by
  decide

/-- The factory reset where the code achieves it: when Verify succeeds,
`security_factory_reset` returns 0 and makes, after the read of Verify,
exactly the fourteen deletions in the order of the array, the compaction
and, last, the restart; when the fourteen deletions succeed, the recovery
record is absent, GetStatus reports `is_set = 0` and every collection of the
array is empty. -/
theorem factory_reset_effect (d : Deps) (env : Env) (req : Option SecurityVerifyRequest)
    (w : World) (hv : (security_verify d env req w).1 = 0) :
    (security_factory_reset d env req w).1 = 0 ∧
      (security_factory_reset d env req w).2.trace =
        w.trace ++ Event.query Query.verify :: factory_reset_calls ∧
      factory_reset_calls.getLast? = some (Event.system "reboot".toList) ∧
      ((∀ k, 1 ≤ k → k ≤ 14 → env.fault k = false) →
        (security_factory_reset d env req w).2.db.security_questions = none ∧
        (∀ (env2 : Env) (s : SecurityStatus),
          (security_get_status d env2 (some s) (security_factory_reset d env req w).2).1 =
            (0, some { is_set := 0, iccid := [], created_at := 0 })) ∧
        (∀ t ∈ factory_reset_tables,
          collection_empty t (security_factory_reset d env req w).2.db)) := by
  obtain ⟨h1, h2, h3⟩ := factory_after_verify d env req w hv
  refine ⟨h1, h2, by decide, fun hf => ?_⟩
  have hrow : (security_factory_reset d env req w).2.db.security_questions = none := by
    have := h3 hf "security_questions".toList (by decide)
    unfold collection_empty at this
    rwa [if_pos rfl] at this
  refine ⟨hrow, ?_, h3 hf⟩
  intro env2 s
  rw [status_of_unset d env2 s _ hrow]

/-- Example of the factory reset: the scenario's record and a message in the
inbox, every store call succeeding. -/
theorem factory_reset_effect_witness :
    (security_verify sample_deps sample_env (some sample_verify) sample_enrolled_sms).1 = 0 ∧
      (security_factory_reset sample_deps sample_env (some sample_verify)
        sample_enrolled_sms).2.db.security_questions = none ∧
      collection_empty "sms".toList (security_factory_reset sample_deps sample_env
        (some sample_verify) sample_enrolled_sms).2.db :=
  ⟨by decide,
    ((factory_reset_effect sample_deps sample_env (some sample_verify) sample_enrolled_sms
      (by decide)).2.2.2 (fun _ _ _ => rfl)).1,
    ((factory_reset_effect sample_deps sample_env (some sample_verify) sample_enrolled_sms
      (by decide)).2.2.2 (fun _ _ _ => rfl)).2.2 "sms".toList (by decide)⟩

theorem setup_of_bad_identity (d : Deps) (env : Env) (req : SecuritySetupRequest) (w : World)
    (hdb : w.db.security_questions = none) (hfg : FieldsGiven req)
    (hid : env.iccid_rc ≠ 0 ∨ (get_iccid env d.SECURITY_ICCID_MAX_LEN).2 = []) :
    security_setup d env (some req) w = (-2, after_query Query.status w) := by
  have hn : ¬ (strlen req.question1 = 0 ∨ strlen req.answer1 = 0 ∨
      strlen req.question2 = 0 ∨ strlen req.answer2 = 0) := by
    simp only [strlen, List.length_eq_zero]
    unfold FieldsGiven at hfg
    tauto
  have hid2 : (get_iccid env d.SECURITY_ICCID_MAX_LEN).1 ≠ 0 ∨
      strlen (get_iccid env d.SECURITY_ICCID_MAX_LEN).2 = 0 := by
    rcases hid with h | h
    · exact Or.inl h
    · exact Or.inr (by simp [strlen, h])
  unfold security_setup
  simp only [hn, if_false, status_of_unset d env _ w hdb, status_is_set, ne_eq,
    not_true_eq_false, and_false, hid2, if_true]

/-- C13: in a state without recovery record, `security_setup` returns -2
(InvalidInput) and leaves the world untouched for every request with an
empty field, and returns -2 (IdentityUnavailable, the same value) for every
request with four non-empty fields when `get_iccid` fails or delivers an
empty identity; in both cases the persistent state is the one before, no
record exists and a following GetStatus reports `is_set = 0`. -/
theorem setup_rejects_bad_preconditions (d : Deps) (env : Env) (req : SecuritySetupRequest)
    (w : World) (hdb : w.db.security_questions = none)
    (hbad : ¬ FieldsGiven req ∨
      (env.iccid_rc ≠ 0 ∨ (get_iccid env d.SECURITY_ICCID_MAX_LEN).2 = [])) :
    (security_setup d env (some req) w).1 = -2 ∧
      (¬ FieldsGiven req → security_setup d env (some req) w = (-2, w)) ∧
      (security_setup d env (some req) w).2.db = w.db ∧
      (security_setup d env (some req) w).2.db.security_questions = none ∧
      (∀ (env2 : Env) (s : SecurityStatus),
        (security_get_status d env2 (some s) (security_setup d env (some req) w).2).1 =
          (0, some { is_set := 0, iccid := [], created_at := 0 })) := by
  have main : (security_setup d env (some req) w).1 = -2 ∧
      (security_setup d env (some req) w).2.db = w.db := by
    by_cases hfg : FieldsGiven req
    · rcases hbad with h | h
      · exact absurd hfg h
      · rw [setup_of_bad_identity d env req w hdb hfg h]
        exact ⟨rfl, rfl⟩
    · rw [setup_of_empty_field d env req w hfg]
      exact ⟨rfl, rfl⟩
  have hrow : (security_setup d env (some req) w).2.db.security_questions = none := by
    rw [main.2]; exact hdb
  refine ⟨main.1, fun h => setup_of_empty_field d env req w h, main.2, hrow, ?_⟩
  intro env2 s
  rw [status_of_unset d env2 s _ hrow]

/-- Witness of C13: an empty answer, and a complete request without card. -/
theorem setup_rejects_bad_preconditions_witness :
    (security_setup sample_deps sample_env (some { sample_setup with answer2 := [] })
        sample_world).1 = -2 ∧
      (security_setup sample_deps sample_env_no_identity (some sample_setup)
        sample_world).1 = -2 ∧
      (security_setup sample_deps sample_env_no_identity (some sample_setup)
        sample_world).2.db = sample_world.db :=
  ⟨(setup_rejects_bad_preconditions sample_deps sample_env { sample_setup with answer2 := [] }
      sample_world rfl (Or.inl (by decide))).1,
    (setup_rejects_bad_preconditions sample_deps sample_env_no_identity sample_setup
      sample_world rfl (Or.inr (Or.inl (by decide)))).1,
    (setup_rejects_bad_preconditions sample_deps sample_env_no_identity sample_setup
      sample_world rfl (Or.inr (Or.inl (by decide)))).2.2.1⟩


theorem status_set_reads (d : Deps) (env : Env) (s : SecurityStatus) (w : World)
    (h : status_is_set (security_get_status d env (some s) w).1.2 ≠ 0) :
    (db_query_string (env.fault 0) d Query.status 256 w).1.1 = 0 ∧
      (db_query_string (env.fault 0) d Query.status 256 w).1.2 ≠ [] := by
  unfold security_get_status at h
  dsimp only at h
  split at h
  · rename_i hc
    refine ⟨hc.1, ?_⟩
    intro he
    have := hc.2
    rw [he] at this
    simp [strlen] at this
  · simp [status_is_set] at h

theorem setup_already_enrolled_reads (d : Deps) (env : Env) (req : Option SecuritySetupRequest)
    (w : World) (h : (security_setup d env req w).1 = -1) :
    (db_query_string (env.fault 0) d Query.status 256 w).1.1 = 0 ∧
      (db_query_string (env.fault 0) d Query.status 256 w).1.2 ≠ [] := by
  unfold security_setup at h
  dsimp only at h
  split at h
  · simp at h
  · split at h
    · simp at h
    · split at h
      · rename_i hg
        exact status_set_reads d env _ w hg.2
      · split at h
        · simp at h
        · split at h <;> simp at h

theorem setup_of_failed_status_read (d : Deps) (env : Env) (req : SecuritySetupRequest)
    (w : World) (hfg : FieldsGiven req) (hf0 : env.fault 0 = true) (hrc : env.iccid_rc = 0)
    (hne : (get_iccid env d.SECURITY_ICCID_MAX_LEN).2 ≠ [])
    (hw : (db_execute (env.fault 1) (setup_stmt d env req) (after_query Query.status w)).1 = 0) :
    security_setup d env (some req) w =
      (0, { db := { w.db with security_questions := some (enrolled_row d env req) }
            trace := w.trace ++ [Event.query Query.status] ++
              [Event.execute (Stmt.insert_or_replace
                (d.db_escape_string req.question1 (d.SECURITY_QUESTION_MAX_LEN * 2))
                (d.db_escape_string req.question2 (d.SECURITY_QUESTION_MAX_LEN * 2))
                (d.sha256_hash_string req.answer1) (d.sha256_hash_string req.answer2)
                (get_iccid env d.SECURITY_ICCID_MAX_LEN).2 env.now)] }) := by
  have hn : ¬ (strlen req.question1 = 0 ∨ strlen req.answer1 = 0 ∨
      strlen req.question2 = 0 ∨ strlen req.answer2 = 0) := by
    simp only [strlen, List.length_eq_zero]
    unfold FieldsGiven at hfg
    tauto
  have hid : ¬ ((get_iccid env d.SECURITY_ICCID_MAX_LEN).1 ≠ 0 ∨
      strlen (get_iccid env d.SECURITY_ICCID_MAX_LEN).2 = 0) := by
    simp only [not_or, not_not, ne_eq, strlen, List.length_eq_zero]
    exact ⟨hrc, hne⟩
  obtain ⟨_, _, hres⟩ := execute_setup_stmt _ d env req _ hw
  unfold security_setup
  simp only [hn, if_false, status_of_fault d env _ w hf0, status_is_set, ne_eq,
    not_true_eq_false, and_false, hid, compute_answer_hash]
  rw [show Stmt.insert_or_replace
      (d.db_escape_string req.question1 (d.SECURITY_QUESTION_MAX_LEN * 2))
      (d.db_escape_string req.question2 (d.SECURITY_QUESTION_MAX_LEN * 2))
      (d.sha256_hash_string req.answer1) (d.sha256_hash_string req.answer2)
      (get_iccid env d.SECURITY_ICCID_MAX_LEN).2 env.now = setup_stmt d env req from rfl,
    if_neg (by simpa using hw), hres]
  rfl

/-- C19: `security_setup` returns -1 (AlreadyEnrolled) only when its status
query succeeds with a non-empty output.  In every state that holds a record,
when the status query fails (`security_get_status` then reports `is_set = 0`
and returns 0) while the four fields are non-empty, the identity resolves to
a non-empty text and the write succeeds (`db_execute` of the statement built
for the request returns 0), `security_setup` returns 0 and the stored record
is the new one, written by the INSERT OR REPLACE statement. -/
theorem setup_guard_depends_on_status_read (d : Deps) (env : Env) (w : World) :
    (∀ req : Option SecuritySetupRequest, (security_setup d env req w).1 = -1 →
        (db_query_string (env.fault 0) d Query.status 256 w).1.1 = 0 ∧
        (db_query_string (env.fault 0) d Query.status 256 w).1.2 ≠ []) ∧
      (∀ (req : SecuritySetupRequest) (r : SecurityRow), w.db.security_questions = some r →
        FieldsGiven req → env.fault 0 = true → env.iccid_rc = 0 →
        (get_iccid env d.SECURITY_ICCID_MAX_LEN).2 ≠ [] →
        (db_execute (env.fault 1) (setup_stmt d env req) (after_query Query.status w)).1 = 0 →
        (security_get_status d env (some { is_set := 0, iccid := [], created_at := 0 }) w).1 =
            (0, some { is_set := 0, iccid := [], created_at := 0 }) ∧
          (security_setup d env (some req) w).1 = 0 ∧
          (security_setup d env (some req) w).2.db.security_questions =
            some (enrolled_row d env req) ∧
          (security_setup d env (some req) w).2.trace.getLast? =
            some (Event.execute (Stmt.insert_or_replace
              (d.db_escape_string req.question1 (d.SECURITY_QUESTION_MAX_LEN * 2))
              (d.db_escape_string req.question2 (d.SECURITY_QUESTION_MAX_LEN * 2))
              (d.sha256_hash_string req.answer1) (d.sha256_hash_string req.answer2)
              (get_iccid env d.SECURITY_ICCID_MAX_LEN).2 env.now))) := by
  refine ⟨fun req h => setup_already_enrolled_reads d env req w h, ?_⟩
  intro req r _ hfg hf0 hrc hne hw
  rw [setup_of_failed_status_read d env req w hfg hf0 hrc hne hw,
    status_of_fault d env _ w hf0]
  refine ⟨rfl, rfl, rfl, ?_⟩
  simp

/-- Witness of C19: the scenario's record, replaced by a second enrollment
whose status read fails. -/
theorem setup_guard_depends_on_status_read_witness :
    sample_enrolled.db.security_questions =
        some (enrolled_row sample_deps sample_env sample_setup) ∧
      (security_setup sample_deps sample_env_read_fails (some sample_setup_other)
        sample_enrolled).1 = 0 ∧
      (security_setup sample_deps sample_env_read_fails (some sample_setup_other)
        sample_enrolled).2.db.security_questions =
        some (enrolled_row sample_deps sample_env_read_fails sample_setup_other) :=
  ⟨by decide,
    ((setup_guard_depends_on_status_read sample_deps sample_env_read_fails sample_enrolled).2
      sample_setup_other (enrolled_row sample_deps sample_env sample_setup) (by decide)
      (by decide) rfl rfl (by decide) (by decide)).2.1,
    ((setup_guard_depends_on_status_read sample_deps sample_env_read_fails sample_enrolled).2
      sample_setup_other (enrolled_row sample_deps sample_env sample_setup) (by decide)
      (by decide) rfl rfl (by decide) (by decide)).2.2.1⟩


/-! ## The creation time on the wire: `%ld` read back by `atol` -/

theorem digitChar_facts (n : Nat) (h : n < 10) :
    (Nat.digitChar n).isDigit = true ∧ digit_value (Nat.digitChar n) = n := by
  interval_cases n <;> decide

theorem digit_not_space (c : Char) (h : c.isDigit = true) :
    isspace c = false ∧ c ≠ '-' ∧ c ≠ '+' := by
  refine ⟨?_, ?_, ?_⟩
  · cases hs : isspace c
    · rfl
    · exfalso
      simp only [isspace, Bool.or_eq_true, decide_eq_true_eq] at hs
      rcases hs with ((((hs | hs) | hs) | hs) | hs) | hs <;> (subst hs; revert h; decide)
  · intro e; subst e; revert h; decide
  · intro e; subst e; revert h; decide

theorem atol_digits_dec : ∀ (fuel n : Nat), n < fuel → ∀ (acc : Nat) (rest : CStr),
    atol_digits (nat_to_dec fuel n ++ rest) acc =
      atol_digits rest (acc * 10 ^ (nat_to_dec fuel n).length + n) := by
  intro fuel
  induction fuel with
  | zero => intro n h; omega
  | succ f ih =>
    intro n h acc rest
    by_cases h10 : n < 10
    · obtain ⟨hd, hv⟩ := digitChar_facts n h10
      simp [nat_to_dec, h10, atol_digits, hd, hv]
    · obtain ⟨hd, hv⟩ := digitChar_facts (n % 10) (Nat.mod_lt _ (by omega))
      have hlt : n / 10 < f := by omega
      simp only [nat_to_dec, h10, if_false, List.append_assoc, List.singleton_append,
        List.length_append, List.length_singleton]
      rw [ih (n / 10) hlt]
      simp only [atol_digits, hd, if_true, hv]
      congr 1
      rw [pow_succ]
      have := Nat.div_add_mod n 10
      nlinarith [this]

theorem nat_to_dec_head : ∀ (fuel n : Nat), n < fuel →
    ∃ (c : Char) (tl : CStr), nat_to_dec fuel n = c :: tl ∧ c.isDigit = true := by
  intro fuel
  induction fuel with
  | zero => intro n h; omega
  | succ f ih =>
    intro n h
    by_cases h10 : n < 10
    · exact ⟨Nat.digitChar n, [], by simp [nat_to_dec, h10], (digitChar_facts n h10).1⟩
    · obtain ⟨c, tl, e, hc⟩ := ih (n / 10) (by omega)
      exact ⟨c, tl ++ [Nat.digitChar (n % 10)], by simp [nat_to_dec, h10, e], hc⟩

theorem atol_of_digit (c : Char) (tl : CStr) (h : c.isDigit = true) :
    atol (c :: tl) = (atol_digits (c :: tl) 0 : Int) := by
  obtain ⟨hs, hm, hp⟩ := digit_not_space c h
  unfold atol
  simp only [List.dropWhile, hs]
  split
  · rename_i r e
    exact absurd (List.cons.inj e).1 hm
  · rename_i r e
    exact absurd (List.cons.inj e).1 hp
  · rfl

theorem atol_digits_tail (n : Nat) (e : CStr) (he : e = [] ∨ e = ['\n']) :
    atol_digits e n = n := by
  rcases he with rfl | rfl
  · rfl
  · simp [atol_digits]

theorem atol_fmt_ld (t : Int) (e : CStr) (he : e = [] ∨ e = ['\n']) :
    atol (fmt_ld t ++ e) = t := by
  have hval : atol_digits (nat_to_dec (t.natAbs + 1) t.natAbs ++ e) 0 = t.natAbs := by
    rw [atol_digits_dec (t.natAbs + 1) t.natAbs (by omega) 0 e]
    simp [atol_digits_tail _ e he]
  by_cases hneg : t < 0
  · have hsp : isspace '-' = false := by decide
    simp only [fmt_ld, hneg, if_true, List.cons_append]
    unfold atol
    simp only [List.dropWhile, hsp]
    rw [hval]
    omega
  · obtain ⟨c, tl, hc, hd⟩ := nat_to_dec_head (t.natAbs + 1) t.natAbs (by omega)
    simp only [fmt_ld, hneg, if_false]
    rw [hc] at hval ⊢
    rw [List.cons_append] at hval ⊢
    rw [atol_of_digit c _ hd, hval]
    omega


/-! ## The status and the questions read back after an enrollment -/

theorem query_status_text (d : Deps) (r : SecurityRow) (w : World)
    (hdb : w.db.security_questions = some r)
    (hfit : r.iccid.length + (fmt_ld r.created_at).length + 1 ≤ 255) :
    ∃ e : CStr, (e = [] ∨ e = ['\n']) ∧
      db_query_string false d Query.status 256 w =
        ((0, r.iccid ++ '|' :: (fmt_ld r.created_at ++ e)), after_query Query.status w) := by
  have hA : (r.iccid ++ '|' :: fmt_ld r.created_at).length ≤ 255 := by
    simp; omega
  obtain ⟨e2, he2, htake⟩ := take_append_tail (r.iccid ++ '|' :: fmt_ld r.created_at)
    (if d.query_newline then ['\n'] else []) 255 hA (by cases d.query_newline <;> simp)
  refine ⟨e2, he2, ?_⟩
  simp only [db_query_string, query_text, hdb, after_query]
  simp only [Bool.false_eq_true, if_false]
  rw [show (256 - 1 : Nat) = 255 from rfl, htake]
  simp [List.append_assoc]

theorem status_of_row_value (d : Deps) (env : Env) (s : SecurityStatus) (w : World)
    (r : SecurityRow) (hdb : w.db.security_questions = some r) (hf : env.fault 0 = false)
    (hp : '|' ∉ r.iccid) (hsz : r.iccid.length < d.sizeof_status_iccid)
    (hfit : r.iccid.length + (fmt_ld r.created_at).length + 1 ≤ 255) :
    security_get_status d env (some s) w =
      ((0, some { is_set := 1, iccid := r.iccid, created_at := r.created_at }),
        after_query Query.status w) := by
  obtain ⟨e, he, hq⟩ := query_status_text d r w hdb hfit
  have h1 : strchr (r.iccid ++ '|' :: (fmt_ld r.created_at ++ e)) '|' = some r.iccid.length :=
    strchr_append_cons _ _ _ hp
  have hk : List.take r.iccid.length (r.iccid ++ '|' :: (fmt_ld r.created_at ++ e)) = r.iccid := by
    simp
  have hd : List.drop (r.iccid.length + 1) (r.iccid ++ '|' :: (fmt_ld r.created_at ++ e))
      = fmt_ld r.created_at ++ e := by simp
  have ht : List.take (d.sizeof_status_iccid - 1) r.iccid = r.iccid :=
    List.take_of_length_le (by omega)
  have hpos : 0 < (r.iccid ++ '|' :: (fmt_ld r.created_at ++ e)).length := by simp
  unfold security_get_status
  simp only [hf, hq, strlen, gt_iff_lt, hpos, and_self, if_true, h1, hk, hd, strncpy, ht,
    atol_fmt_ld _ e he]

/-- C14 (violated by the code): right after the scenario's successful
enrollment, a GetStatus whose read of the store fails returns 0 and reports
`is_set = 0`, no identity and no creation time, although the record is
there. -/
theorem status_unset_after_enroll_when_read_fails :
    sample_world.db.security_questions = none ∧
      (security_setup sample_deps sample_env (some sample_setup) sample_world).1 = 0 ∧
      (security_setup sample_deps sample_env (some sample_setup)
        sample_world).2.db.security_questions =
        some (enrolled_row sample_deps sample_env sample_setup) ∧
      (security_get_status sample_deps sample_env_read_fails
        (some { is_set := 0, iccid := [], created_at := 0 })
        (security_setup sample_deps sample_env (some sample_setup) sample_world).2).1 =
        (0, some { is_set := 0, iccid := [], created_at := 0 }) := by
  decide

/-- The status where the code achieves it: after a successful
`security_setup`, a GetStatus whose read of the store succeeds returns 0 and
reports `is_set = 1`, the identity `get_iccid` delivered at enrollment time
and the creation time written by the enrollment, for an identity free of
the delimiter and of the quote that fits the status buffer and the read
buffer together with the printed time. -/
theorem status_after_enroll (d : Deps) (env1 env2 : Env) (req : SecuritySetupRequest)
    (s : SecurityStatus) (w : World)
    (hs : (security_setup d env1 (some req) w).1 = 0)
    (hread : env2.fault 0 = false)
    (hp : '|' ∉ (get_iccid env1 d.SECURITY_ICCID_MAX_LEN).2)
    (hq : '\'' ∉ (get_iccid env1 d.SECURITY_ICCID_MAX_LEN).2)
    (hsz : d.SECURITY_ICCID_MAX_LEN ≤ d.sizeof_status_iccid)
    (hfit : d.SECURITY_ICCID_MAX_LEN + (fmt_ld env1.now).length ≤ 255) :
    (security_get_status d env2 (some s) (security_setup d env1 (some req) w).2).1 =
      (0, some { is_set := 1, iccid := (get_iccid env1 d.SECURITY_ICCID_MAX_LEN).2,
                 created_at := env1.now }) := by
  obtain ⟨_, _, hne, _, hdb⟩ := setup_success d env1 req w hs
  have hrow : (security_setup d env1 (some req) w).2.db.security_questions =
      some (enrolled_row d env1 req) := by rw [hdb]
  have hic : (enrolled_row d env1 req).iccid = (get_iccid env1 d.SECURITY_ICCID_MAX_LEN).2 := by
    simp only [enrolled_row, sql_literal_of_no_quote _ hq, Option.getD_some]
  have hpos : 0 < d.SECURITY_ICCID_MAX_LEN - 1 := by
    by_contra hz
    have hz2 : d.SECURITY_ICCID_MAX_LEN - 1 = 0 := by omega
    apply hne
    simp [get_iccid, hz2]
  have hlen : (get_iccid env1 d.SECURITY_ICCID_MAX_LEN).2.length
      ≤ d.SECURITY_ICCID_MAX_LEN - 1 := by
    simp [get_iccid]
  have hct : (enrolled_row d env1 req).created_at = env1.now := rfl
  rw [status_of_row_value d env2 s _ (enrolled_row d env1 req) hrow hread (by rw [hic]; exact hp)
    (by rw [hic]; omega) (by rw [hic, hct]; omega), hic, hct]

/-- Example of the status: the scenario's enrollment, read back with another
card in the device. -/
theorem status_after_enroll_witness :
    (security_setup sample_deps sample_env (some sample_setup) sample_world).1 = 0 ∧
      (security_get_status sample_deps sample_env_other_card
        (some { is_set := 0, iccid := [], created_at := 0 })
        (security_setup sample_deps sample_env (some sample_setup) sample_world).2).1 =
        (0, some { is_set := 1, iccid := "8986001".toList, created_at := 1700000000 }) :=
  ⟨by decide,
    status_after_enroll sample_deps sample_env sample_env_other_card sample_setup
      { is_set := 0, iccid := [], created_at := 0 } sample_world (by decide) rfl (by decide)
      (by decide) (by decide) (by decide)⟩

theorem query_questions_text (d : Deps) (r : SecurityRow) (w : World)
    (hdb : w.db.security_questions = some r)
    (hfit : r.question1.length + r.question2.length + 1 ≤ 1023) :
    ∃ e : CStr, (e = [] ∨ e = ['\n']) ∧
      db_query_string false d Query.questions 1024 w =
        ((0, r.question1 ++ '|' :: (r.question2 ++ e)), after_query Query.questions w) := by
  have hA : (r.question1 ++ '|' :: r.question2).length ≤ 1023 := by
    simp; omega
  obtain ⟨e2, he2, htake⟩ := take_append_tail (r.question1 ++ '|' :: r.question2)
    (if d.query_newline then ['\n'] else []) 1023 hA (by cases d.query_newline <;> simp)
  refine ⟨e2, he2, ?_⟩
  simp only [db_query_string, query_text, hdb, after_query]
  simp only [Bool.false_eq_true, if_false]
  rw [show (1024 - 1 : Nat) = 1023 from rfl, htake]
  simp [List.append_assoc]

theorem questions_of_fault (d : Deps) (env : Env) (s : SecurityQuestions) (w : World)
    (hf : env.fault 0 = true) :
    security_get_questions d env (some s) w =
      ((-1, some { question1 := [], question2 := [] }), after_query Query.questions w) := by
  unfold security_get_questions
  simp [db_query_string, hf, after_query]

/-- The delimiter in a stored prompt: in every state whose stored first
prompt is `a`, the delimiter, then `b`, a GetQuestions whose read succeeds
returns 0 and, as first prompt, the unescaping of `a` alone, for texts that
fit the buffers and `a` free of the delimiter. -/
theorem questions_split_at_first_delimiter (d : Deps) (env : Env) (s : SecurityQuestions)
    (w : World) (r : SecurityRow) (a b : CStr)
    (hdb : w.db.security_questions = some r) (hread : env.fault 0 = false)
    (hq : r.question1 = a ++ '|' :: b) (hp : '|' ∉ a)
    (hl : a.length < d.sizeof_question1)
    (hfit : r.question1.length + r.question2.length + 1 ≤ 1023) :
    ∃ q2 : CStr, (security_get_questions d env (some s) w).1 =
      (0, some { question1 := d.db_unescape_string a, question2 := q2 }) := by
  obtain ⟨e, he, hqt⟩ := query_questions_text d r w hdb hfit
  rw [hq] at hqt
  have hout : a ++ '|' :: b ++ '|' :: (r.question2 ++ e) =
      a ++ '|' :: (b ++ '|' :: (r.question2 ++ e)) := by simp
  rw [hout] at hqt
  have h1 : strchr (a ++ '|' :: (b ++ '|' :: (r.question2 ++ e))) '|' = some a.length :=
    strchr_append_cons _ _ _ hp
  have hk : List.take a.length (a ++ '|' :: (b ++ '|' :: (r.question2 ++ e))) = a := by simp
  have ht : List.take (d.sizeof_question1 - 1) a = a := List.take_of_length_le (by omega)
  have hne : ¬ ((0 : Int) ≠ 0 ∨ (a ++ '|' :: (b ++ '|' :: (r.question2 ++ e))).length = 0) := by
    simp
  have hd : List.drop (a.length + 1) (a ++ '|' :: (b ++ '|' :: (r.question2 ++ e))) =
      b ++ '|' :: (r.question2 ++ e) := by simp
  refine ⟨d.db_unescape_string (cut_newline
    (List.take (d.sizeof_question2 - 1) (b ++ '|' :: (r.question2 ++ e)))), ?_⟩
  unfold security_get_questions
  simp only [hread, hqt, strlen, hne, if_false, h1, hk, hd, strncpy, ht]

/-- Example of the split: a stored first prompt `a|b` is returned as `a`. -/
theorem questions_split_at_first_delimiter_witness :
    ∃ q2 : CStr, (security_get_questions sample_deps sample_env
      (some { question1 := [], question2 := [] })
      { sample_enrolled with
        db := { sample_enrolled.db with
                security_questions := some { question1 := "a|b".toList, question2 := "c".toList
                                             answer1_hash := "x".toList, answer2_hash := "y".toList
                                             iccid := "8986001".toList, created_at := 5
                                             locked := 1 } } }).1 =
      (0, some { question1 := sample_deps.db_unescape_string "a".toList, question2 := q2 }) :=
  questions_split_at_first_delimiter sample_deps sample_env { question1 := [], question2 := [] }
    _ _ "a".toList "b".toList rfl rfl (by decide) (by decide) (by decide) (by decide)

end Security
